import Mathlib

/-!
Verification of the image ingestion and caching pipeline of the
Deep-Zoom-Image-Viewer server.

The definitions below are a shallow embedding of the server code.  The
primary embedding follows the hardened server variant
(`src/unnamed/part_004`), which is the variant whose utilities
(`readJsonFile`/`writeJsonFile`, validation bounds, `/api/health`) the
repository README documents; the legacy `src/backend/server.js` variant is
additionally embedded where a claim depends on it (its three duplicate
registrations of `POST /api/process-url`).

Modelling conventions:
- The filesystem is a record `FS` holding the set of tile directories, the
  set of pyramid descriptor files (`tiles.dzi`), the set of staging files
  under `data/`, and the parsed contents of the two JSON database files.
- External effects (the MD5 hash, the NASA metadata service, downloads,
  `gdal_translate`, `vips dzsave`, database file read/write success and
  recursive directory removal success) are an environment `Env` of pure
  functions; one handler run consults it deterministically.
- A `Work` log records the stage work a run performed (downloaded URLs,
  conversion and tiling invocations) and the filesystem operations issued
  against the two database files.
- Plain file operations (`fs.access`, `fs.unlink`, `fs.mkdir`,
  `fs.readdir`, `createWriteStream`) are modelled as reliable; the
  explicitly fallible operations of the source (JSON db reads/writes and
  recursive `fs.rm`) take their outcome from `Env`.
- Each handler is written as a chain of stage functions mirroring the
  successive awaits of the source `try` block; every failure exit performs
  the cleanup of the source `catch`-plus-`finally` blocks.
- JavaScript strings are modelled by `String`, JSON values by `JValue`,
  and JS numbers by `Int` (only typeof tests matter to the claims, never
  arithmetic, so floating point plays no role).
-/

/-! ## JavaScript string operations (structural, kernel-reducible) -/

def listStartsWithCh : List Char → List Char → Bool
  | _, [] => true
  | [], _ :: _ => false
  | a :: as, b :: bs => (a = b) && listStartsWithCh as bs

def containsSubCh : List Char → List Char → Bool
  | [], sub => sub.isEmpty
  | a :: rest, sub => listStartsWithCh (a :: rest) sub || containsSubCh rest sub

/-- JS `s.includes(sub)`. -/
def containsSub (s sub : String) : Bool :=
  containsSubCh s.toList sub.toList

/-- JS `s.endsWith(suf)`. -/
def jsEndsWith (s suf : String) : Bool :=
  listStartsWithCh s.toList.reverse suf.toList.reverse

/-- JS `s.toLowerCase()` (ASCII letters, which is all the source compares). -/
def jsToLower (s : String) : String :=
  String.mk (s.toList.map Char.toLower)

/-- Character kept verbatim by `sanitizeFilename` (the regex `[a-zA-Z0-9._-]`). -/
def sanitizeKeep (c : Char) : Bool :=
  c.isAlpha || c.isDigit || c = '.' || c = '_' || c = '-'

/-- `sanitizeFilename` of the source: replace every character outside
`[a-zA-Z0-9._-]` with an underscore and truncate to 255 characters. -/
def sanitizeFilename (s : String) : String :=
  String.mk ((s.toList.map (fun c => if sanitizeKeep c then c else '_')).take 255)

/-- Split a character list on a separator (the structural core of
`String.split`). -/
def splitOnCh (sep : Char) : List Char → List (List Char)
  | [] => [[]]
  | c :: rest =>
    let r := splitOnCh sep rest
    if c = sep then [] :: r
    else
      match r with
      | [] => [[c]]
      | h :: t => (c :: h) :: t

/-- `path.basename` as applied to a URL pathname: the last non-empty
slash-separated component. -/
def basename (p : String) : String :=
  String.mk (((splitOnCh '/' p.toList).filter (fun c => ¬ c.isEmpty)).getLastD [])

/-- `path.extname`: the suffix from the last dot of the base name, empty for
names without a dot and for dotfiles. -/
def extname (s : String) : String :=
  match splitOnCh '.' s.toList with
  | [] => ""
  | [_] => ""
  | [[], _] => ""
  | parts => "." ++ String.mk (parts.getLastD [])

/-- The `path.extname(title)` fallback to `.tmp` of the source. -/
def extOrTmp (t : String) : String :=
  if extname t = "" then ".tmp" else extname t

/-- Lexicographic comparison of names, modelling the
`(a, b) => a.name.localeCompare(b.name)` sort comparator (the precise
locale order is irrelevant to every claim proved below). -/
def charListLe : List Char → List Char → Bool
  | [], _ => true
  | _ :: _, [] => false
  | a :: as, b :: bs => if a = b then charListLe as bs else a.toNat ≤ b.toNat

/-! ## JSON values and the annotation store -/

inductive JValue where
  | null : JValue
  | jbool : Bool → JValue
  | jnum : Int → JValue
  | jstr : String → JValue
  | jarr : List JValue → JValue
  | jobj : List (String × JValue) → JValue

/-- JS truthiness of a value (NaN does not arise in this integer model). -/
def JValue.truthy : JValue → Bool
  | .null => false
  | .jbool b => b
  | .jnum n => n ≠ 0
  | .jstr s => s ≠ ""
  | .jarr _ => true
  | .jobj _ => true

/-- JS property access `v[k]`; `none` models `undefined`.  Property access
on a non-object (a boxed primitive or an array without that key) yields
`undefined`, exactly as in JS for the keys the server reads. -/
def JValue.getField : JValue → String → Option JValue
  | .jobj fields, k => fields.lookup k
  | _, _ => none

/-- Truthiness of a possibly-undefined value. -/
def truthyOpt : Option JValue → Bool
  | none => false
  | some v => v.truthy

/-- the `typeof v` object check plus truthiness — the guard that accepts a request body:
objects and arrays pass, `null` and primitives do not. -/
def isObjLike : JValue → Bool
  | .jobj _ => true
  | .jarr _ => true
  | _ => false

/-- The annotation store: the parsed `annotations.json` object, a mapping
from image id to the ordered list of annotation bodies.  JSON object keys
are unique, so the list never holds two bindings of one key. -/
abbrev AnnStore := List (String × List JValue)

/-- JS property assignment `m[k] = v`: update the binding in place when the
key exists, otherwise append it. -/
def setKey : List (String × α) → String → α → List (String × α)
  | [], k, v => [(k, v)]
  | (k0, v0) :: rest, k, v =>
    if k0 = k then (k0, v) :: rest else (k0, v0) :: setKey rest k v

/-- JS `delete m[k]`: drop the binding of `k` (object keys are unique). -/
def delKey (m : List (String × α)) (k : String) : List (String × α) :=
  m.filter (fun kv => kv.1 ≠ k)

/-- The `if (!m[k]) m[k] = [];` idiom of the source (stored values are
arrays, hence truthy, so truthiness coincides with key presence). -/
def ensureKey (m : AnnStore) (k : String) : AnnStore :=
  match m.lookup k with
  | some _ => m
  | none => m ++ [(k, [])]

/-- `if (!m[k]) m[k] = []; m[k].push(v);` of the source. -/
def annPush (m : AnnStore) (k : String) (v : JValue) : AnnStore :=
  match m.lookup k with
  | some cur => setKey m k (cur ++ [v])
  | none => m ++ [(k, [v])]

/-! ## Records, filesystem state, work log -/

/-- A row of `images.json`.  `sourceRef` holds the `nasa_id` field of a NASA
row or the `sourceUrl` field of a URL row; `created` the ISO timestamp. -/
structure ImageRecord where
  id : String
  name : String
  path : String
  source : String
  sourceRef : String
  created : String
deriving Repr, DecidableEq

/-- An element of the `GET /api/images` response. -/
structure ImageEntry where
  id : String
  name : String
  path : String
deriving Repr, DecidableEq

/-- An element of a NASA asset collection; `href` is `none` when the item
carries no `href` property. -/
structure Item where
  href : Option String
deriving Repr, DecidableEq

/-- Filesystem and database state visible to the server.
`dirs` — tile directories under `public/gigaimages/` (by image id);
`descriptors` — ids whose `tiles.dzi` descriptor file exists;
`staging` — staging files under `server/data/`;
`imagesDb` / `annotationsDb` — parsed contents of the two JSON files. -/
structure FS where
  dirs : List String
  descriptors : List String
  staging : List String
  imagesDb : List ImageRecord
  annotationsDb : AnnStore

/-- A filesystem operation issued against one of the two database files. -/
inductive FileOp where
  | write : String → FileOp
  | rename : String → String → FileOp
  | unlink : String → FileOp
deriving Repr, DecidableEq

/-- The operation trace of `writeJsonFile(dest, data)`: write the full JSON
snapshot to the sibling `dest + ".tmp"` path, then rename it over `dest`;
on a failure the temp file is unlinked and `dest` is left untouched. -/
def writeJsonFileOps (dest : String) (ok : Bool) : List FileOp :=
  if ok then [.write (dest ++ ".tmp"), .rename (dest ++ ".tmp") dest]
  else [.write (dest ++ ".tmp"), .unlink (dest ++ ".tmp")]

/-- Work performed by one handler run: the URLs it streamed to disk, how
many `gdal_translate` and `vips dzsave` invocations it made, how many of
the tiling invocations succeeded, and the operations it issued against the
two database files. -/
structure Work where
  downloads : List String
  conversions : Nat
  tilings : Nat
  tilingsOk : Nat
  dbOps : List FileOp
deriving Repr, DecidableEq

def Work.zero : Work := ⟨[], 0, 0, 0, []⟩

/-- An HTTP response of an ingestion endpoint: status, the `{id, path}`
payload of a success, and the plain-text message of a failure. -/
structure IngestResult where
  status : Nat
  payload : Option (String × String)
  message : String
deriving Repr, DecidableEq

/-- Outcome of one ingestion handler run. -/
structure IngestOut where
  res : IngestResult
  fs : FS
  work : Work

/-- Outcome of the annotation-saving handler. -/
structure AnnotOut where
  status : Nat
  body : Option JValue
  fs : FS
  dbOps : List FileOp

/-- Outcome of the image-deletion handler; `warned` records the
filesystem-removal-failed warning path. -/
structure DeleteOut where
  status : Nat
  warned : Bool
  fs : FS
  dbOps : List FileOp

/-- External collaborators and fallible effects, fixed for one run.
`hash` is the MD5 hex digest; `urlValid`/`urlPathname` the behavior of
`new URL`; `assetOk`/`assetItems` the NASA metadata service;
`downloadOk`/`contentType`/`downloadSize` the download of a URL;
`convertOk`/`tileOk` the external tools keyed by their input file;
`readOk`/`writeOk` JSON database file IO keyed by path; `rmOk` recursive
directory removal keyed by path; `now` the current ISO timestamp. -/
structure Env where
  hash : String → String
  now : String
  urlValid : String → Bool
  urlPathname : String → String
  assetOk : String → Bool
  assetItems : String → List Item
  downloadOk : String → Bool
  contentType : String → Option String
  downloadSize : String → Nat
  convertOk : String → Bool
  tileOk : String → Bool
  readOk : String → Bool
  writeOk : String → Bool
  rmOk : String → Bool

/-! ## Paths -/

def imagesDbPath : String := "data/images.json"

def annotationsDbPath : String := "data/annotations.json"

def gigaFolder (imageId : String) : String := "public/gigaimages/" ++ imageId

def dziRelPath (imageId : String) : String := "gigaimages/" ++ imageId ++ "/tiles.dzi"

def nasaTempPath (imageId : String) : String := "data/" ++ imageId ++ "_temp"

/-- Display title of a URL ingestion in the hardened variant:
`sanitizeFilename(path.basename(urlObj.pathname))` with fallback `image`. -/
def p4UrlTitle (env : Env) (url : String) : String :=
  sanitizeFilename (if basename (env.urlPathname url) = "" then "image" else basename (env.urlPathname url))

/-- Staging path of a URL ingestion in the hardened variant. -/
def p4UrlTemp (env : Env) (url : String) : String :=
  "data/" ++ env.hash url ++ "_temp" ++ extOrTmp (p4UrlTitle env url)

/-- Display title of a URL ingestion in the legacy variant (no sanitizing). -/
def sjsUrlTitle (env : Env) (url : String) : String :=
  basename (env.urlPathname url)

/-- Staging path of a URL ingestion in the legacy variant. -/
def sjsUrlTemp (env : Env) (url : String) : String :=
  "data/" ++ env.hash url ++ "_temp" ++ extOrTmp (sjsUrlTitle env url)

/-- The `.IMG` test of the legacy gdal branch: `title.toLowerCase().endsWith(.img)`. -/
def sjsIsImg (env : Env) (url : String) : Bool :=
  jsEndsWith (jsToLower (sjsUrlTitle env url)) ".img"

/-- The converted-raster path of the legacy gdal branch
(`tiffPath = isIMG ? id_converted.tif : tempImagePath`). -/
def sjsTiffPath (env : Env) (url : String) : String :=
  if sjsIsImg env url then "data/" ++ env.hash url ++ "_converted.tif" else sjsUrlTemp env url

/-! ## NASA download URL selection -/

/-- Guarded `item.href && item.href.includes(sub)`. -/
def itemHrefHas (sub : String) (it : Item) : Bool :=
  match it.href with
  | some h => h ≠ "" && containsSub h sub
  | none => false

/-- Guarded `item.href && item.href.toLowerCase().endsWith(.jpg)`. -/
def itemHrefJpg (it : Item) : Bool :=
  match it.href with
  | some h => h ≠ "" && jsEndsWith (jsToLower h) ".jpg"
  | none => false

/-- The original/full-resolution test: href contains `~orig.tif` or `~orig.jpg`. -/
def itemIsOrig (it : Item) : Bool :=
  itemHrefHas "~orig.tif" it || itemHrefHas "~orig.jpg" it

/-- URL selection of `POST /api/process-nasa-image` when the client supplied
no URL: `originalImageUrlItem?.href || largeImageUrlItem?.href || firstJpgItem?.href`. -/
def selectNasaUrl (items : List Item) : Option String :=
  ((items.find? itemIsOrig).bind Item.href) <|>
    ((items.find? (itemHrefHas "~large.jpg")).bind Item.href) <|>
    ((items.find? itemHrefJpg).bind Item.href)

/-- Modelled from the spec (§4.1 step 3), not from the source: the claimed
four-tier priority "original, else large, else medium, else first JPEG".
Used only to compare the source selection against the claim. -/
def specPrioritySelect (items : List Item) : Option String :=
  ((items.find? itemIsOrig).bind Item.href) <|>
    ((items.find? (itemHrefHas "~large.jpg")).bind Item.href) <|>
    ((items.find? (itemHrefHas "~medium.jpg")).bind Item.href) <|>
    ((items.find? itemHrefJpg).bind Item.href)

/-! ## Cleanup helpers -/

/-- Add an entry to a filesystem name list (`mkdir`/`createWriteStream`):
directory and file names are unique on disk. -/
def addUnique (xs : List String) (x : String) : List String :=
  if xs.contains x then xs else xs ++ [x]

/-- Remove a staging file (`fs.unlink` / `cleanupTempFile`, tolerant of a
missing file). -/
def dropStaging (fs : FS) (p : String) : FS :=
  { fs with staging := fs.staging.filter (fun q => q ≠ p) }

/-- Recursive removal of the tile directory of `imageId`
(`fs.rm(imageFolderPath, recursive, force)`): tolerant of a missing
directory; when the removal itself fails the tree survives. -/
def dropTileDir (env : Env) (fs : FS) (imageId : String) : FS :=
  if env.rmOk (gigaFolder imageId) then
    { fs with dirs := fs.dirs.filter (fun d => d ≠ imageId),
              descriptors := fs.descriptors.filter (fun d => d ≠ imageId) }
  else fs

/-- The catch-plus-finally cleanup of the hardened ingestion handlers:
remove the staging file and the partially created tile directory. -/
def ingestCleanup (env : Env) (imageId temp : String) (fs : FS) : FS :=
  dropTileDir env (dropStaging fs temp) imageId

/-- A 500 exit of a hardened ingestion handler: the `catch` block removes
the staging file and the partial tile directory, the `finally` block
removes the staging file again. -/
def failOut (env : Env) (imageId temp msg : String) (fs : FS) (w : Work) : IngestOut :=
  ⟨⟨500, none, msg⟩, ingestCleanup env imageId temp fs, w⟩

/-! ## Ingestion stages (hardened variant)

`registerStage` is the database read-modify-write after `vips dzsave`
succeeded; `tileRegisterStage` is `fs.mkdir` plus the `vips dzsave` call
followed by registration; each handler below reaches these after its own
download stage. -/

/-- Database registration of the hardened handlers: read both files, append
the record and backfill the annotation key only when the id is absent,
persist both through `writeJsonFile`, respond `201 { id, path }`; the
`finally` block removes the staging file. -/
def registerStage (env : Env) (newRec : ImageRecord) (imageId temp msg : String)
    (fs3 : FS) (w3 : Work) : IngestOut :=
  if ¬ (env.readOk imagesDbPath ∧ env.readOk annotationsDbPath) then
    failOut env imageId temp msg fs3 w3
  else if (fs3.imagesDb.find? (fun r => r.id = imageId)).isSome then
    ⟨⟨201, some (imageId, dziRelPath imageId), ""⟩, dropStaging fs3 temp, w3⟩
  else if ¬ env.writeOk imagesDbPath then
    failOut env imageId temp msg fs3
      { w3 with dbOps := w3.dbOps ++ writeJsonFileOps imagesDbPath (env.writeOk imagesDbPath) }
  else if ¬ env.writeOk annotationsDbPath then
    failOut env imageId temp msg { fs3 with imagesDb := fs3.imagesDb ++ [newRec] }
      { w3 with dbOps := w3.dbOps ++ writeJsonFileOps imagesDbPath (env.writeOk imagesDbPath)
                  ++ writeJsonFileOps annotationsDbPath (env.writeOk annotationsDbPath) }
  else
    ⟨⟨201, some (imageId, dziRelPath imageId), ""⟩,
      dropStaging { fs3 with imagesDb := fs3.imagesDb ++ [newRec],
                             annotationsDb := ensureKey fs3.annotationsDb imageId } temp,
      { w3 with dbOps := w3.dbOps ++ writeJsonFileOps imagesDbPath (env.writeOk imagesDbPath)
                  ++ writeJsonFileOps annotationsDbPath (env.writeOk annotationsDbPath) }⟩

/-- `fs.mkdir` of the tile directory, the `vips dzsave` invocation (which
writes `tiles.dzi` on success), then registration. -/
def tileRegisterStage (env : Env) (newRec : ImageRecord) (imageId temp tileInput msg : String)
    (fs1 : FS) (w1 : Work) : IngestOut :=
  if ¬ env.tileOk tileInput then
    failOut env imageId temp msg { fs1 with dirs := addUnique fs1.dirs imageId }
      { w1 with tilings := w1.tilings + 1 }
  else
    registerStage env newRec imageId temp msg
      { fs1 with dirs := addUnique fs1.dirs imageId,
                 descriptors := addUnique fs1.descriptors imageId }
      { w1 with tilings := w1.tilings + 1, tilingsOk := w1.tilingsOk + 1 }

/-! ## POST /api/process-nasa-image (hardened variant) -/

/-- The catalog row that a fresh NASA ingestion appends. -/
def nasaRecord (env : Env) (nasaId title : String) : ImageRecord :=
  ⟨env.hash nasaId, sanitizeFilename title, dziRelPath (env.hash nasaId), "nasa", nasaId, env.now⟩

/-- Download stage of the NASA handler: `createWriteStream` creates the
staging file, the streamed download fills it. -/
def nasaDownloadStage (env : Env) (nasaId title imageId temp url : String) (fs : FS) : IngestOut :=
  if ¬ env.downloadOk url then
    failOut env imageId temp "Failed to process NASA image: download failed"
      { fs with staging := addUnique fs.staging temp } ⟨[url], 0, 0, 0, []⟩
  else
    tileRegisterStage env (nasaRecord env nasaId title) imageId temp temp
      "Failed to process NASA image" { fs with staging := addUnique fs.staging temp }
      ⟨[url], 0, 0, 0, []⟩

def processNasaImage (env : Env) (nasaId title : String) (imageUrl : Option String) (fs : FS) : IngestOut :=
  if nasaId = "" ∨ nasaId.length > 100 then
    ⟨⟨400, none, "Invalid NASA ID"⟩, fs, Work.zero⟩
  else if title = "" ∨ title.length > 255 then
    ⟨⟨400, none, "Invalid or missing title"⟩, fs, Work.zero⟩
  else if (match imageUrl with | some u => ! env.urlValid u | none => false) then
    ⟨⟨400, none, "Invalid image URL"⟩, fs, Work.zero⟩
  else if fs.descriptors.contains (env.hash nasaId) then
    ⟨⟨200, some (env.hash nasaId, dziRelPath (env.hash nasaId)), ""⟩, fs, Work.zero⟩
  else
    match (match imageUrl with
           | some u => some u
           | none => if env.assetOk nasaId then selectNasaUrl (env.assetItems nasaId) else none) with
    | none =>
      failOut env (env.hash nasaId) (nasaTempPath (env.hash nasaId))
        "Failed to process NASA image: Could not find a downloadable image URL" fs Work.zero
    | some url =>
      nasaDownloadStage env nasaId title (env.hash nasaId) (nasaTempPath (env.hash nasaId)) url fs

/-! ## POST /api/process-url (hardened variant) -/

/-- The catalog row that a fresh URL ingestion appends (hardened variant). -/
def urlRecord (env : Env) (url : String) : ImageRecord :=
  ⟨env.hash url, p4UrlTitle env url, dziRelPath (env.hash url), "url", url, env.now⟩

/-- Download stage of the hardened URL handler: staging file creation, the
streamed download, the content-type check and the empty-file check. -/
def urlDownloadStage (env : Env) (url imageId temp : String) (fs : FS) : IngestOut :=
  if ¬ env.downloadOk url then
    failOut env imageId temp "Failed to process image from URL: download failed"
      { fs with staging := addUnique fs.staging temp } ⟨[url], 0, 0, 0, []⟩
  else if (match env.contentType url with
           | some ct => ! listStartsWithCh ct.toList "image/".toList
           | none => false) then
    failOut env imageId temp "Failed to process image from URL: URL does not point to an image"
      { fs with staging := addUnique fs.staging temp } ⟨[url], 0, 0, 0, []⟩
  else if env.downloadSize url = 0 then
    failOut env imageId temp "Failed to process image from URL: Downloaded file is empty"
      { fs with staging := addUnique fs.staging temp } ⟨[url], 0, 0, 0, []⟩
  else
    tileRegisterStage env (urlRecord env url) imageId temp temp
      "Failed to process image from URL" { fs with staging := addUnique fs.staging temp }
      ⟨[url], 0, 0, 0, []⟩

def processUrl (env : Env) (imageUrl : String) (fs : FS) : IngestOut :=
  if imageUrl = "" then
    ⟨⟨400, none, "Image URL is required"⟩, fs, Work.zero⟩
  else if imageUrl.length > 2048 then
    ⟨⟨400, none, "URL is too long"⟩, fs, Work.zero⟩
  else if ¬ env.urlValid imageUrl then
    ⟨⟨400, none, "Invalid URL format"⟩, fs, Work.zero⟩
  else if fs.descriptors.contains (env.hash imageUrl) then
    ⟨⟨200, some (env.hash imageUrl, dziRelPath (env.hash imageUrl)), ""⟩, fs, Work.zero⟩
  else
    urlDownloadStage env imageUrl (env.hash imageUrl) (p4UrlTemp env imageUrl) fs

/-! ## POST /api/process-url (legacy variant, three duplicate registrations) -/

/-- The catalog row a legacy fresh URL ingestion appends. -/
def sjsUrlRecord (env : Env) (url : String) : ImageRecord :=
  ⟨env.hash url, sjsUrlTitle env url, dziRelPath (env.hash url), "url", url, env.now⟩

/-- `catch` block of the first legacy handler: unlink the staging file and
remove the tile directory. -/
def sjsCleanupV1 (env : Env) (url : String) (fs : FS) : FS :=
  dropTileDir env (dropStaging fs (sjsUrlTemp env url)) (env.hash url)

/-- `finally` block of the first legacy handler: unlink the staging file. -/
def sjsFinV1 (env : Env) (url : String) (fs : FS) : FS :=
  dropStaging fs (sjsUrlTemp env url)

/-- `catch` block of the gdal-capable legacy handler: unlink the staging
file and the converted raster, remove the tile directory. -/
def sjsCleanupV2 (env : Env) (url : String) (fs : FS) : FS :=
  dropTileDir env (dropStaging (dropStaging fs (sjsUrlTemp env url)) (sjsTiffPath env url)) (env.hash url)

/-- `finally` block of the gdal-capable legacy handler: unlink the staging
file, and for `.IMG` sources the converted raster too. -/
def sjsFinV2 (env : Env) (url : String) (fs : FS) : FS :=
  if sjsIsImg env url then dropStaging (dropStaging fs (sjsUrlTemp env url)) (sjsTiffPath env url)
  else dropStaging fs (sjsUrlTemp env url)

/-- Database registration of the legacy URL handlers: plain `fs.writeFile`
of both files (no temp-and-rename), performed on every fresh build; the
record is appended only when absent.  `cleanup` is the `catch` block of the
enclosing handler, `fin` its `finally` block. -/
def sjsRegisterStage (env : Env) (newRec : ImageRecord) (imageId : String)
    (cleanup fin : FS → FS) (fs3 : FS) (w3 : Work) : IngestOut :=
  if ¬ (env.readOk imagesDbPath ∧ env.readOk annotationsDbPath) then
    ⟨⟨500, none, "Failed to process image from URL."⟩, fin (cleanup fs3), w3⟩
  else if ¬ (env.writeOk imagesDbPath ∧ env.writeOk annotationsDbPath) then
    ⟨⟨500, none, "Failed to process image from URL."⟩, fin (cleanup fs3),
      { w3 with dbOps := w3.dbOps ++ [FileOp.write imagesDbPath, FileOp.write annotationsDbPath] }⟩
  else if (fs3.imagesDb.find? (fun r => r.id = imageId)).isSome then
    ⟨⟨201, some (imageId, dziRelPath imageId), ""⟩, fin fs3,
      { w3 with dbOps := w3.dbOps ++ [FileOp.write imagesDbPath, FileOp.write annotationsDbPath] }⟩
  else
    ⟨⟨201, some (imageId, dziRelPath imageId), ""⟩,
      fin { fs3 with imagesDb := fs3.imagesDb ++ [newRec],
                     annotationsDb := ensureKey fs3.annotationsDb imageId },
      { w3 with dbOps := w3.dbOps ++ [FileOp.write imagesDbPath, FileOp.write annotationsDbPath] }⟩

/-- `fs.mkdir`, `vips dzsave`, then legacy registration. -/
def sjsTileRegisterStage (env : Env) (newRec : ImageRecord) (imageId tileInput : String)
    (cleanup fin : FS → FS) (fs1 : FS) (w1 : Work) : IngestOut :=
  if ¬ env.tileOk tileInput then
    ⟨⟨500, none, "Failed to process image with VIPS."⟩,
      fin (cleanup { fs1 with dirs := addUnique fs1.dirs imageId }),
      { w1 with tilings := w1.tilings + 1 }⟩
  else
    sjsRegisterStage env newRec imageId cleanup fin
      { fs1 with dirs := addUnique fs1.dirs imageId,
                 descriptors := addUnique fs1.descriptors imageId }
      { w1 with tilings := w1.tilings + 1, tilingsOk := w1.tilingsOk + 1 }

/-- First registration of `POST /api/process-url` in `src/backend/server.js`
(lines 172-243): no conversion branch; a `new URL` parse failure surfaces
as a 500 before any pipeline stage runs. -/
def processUrlV1 (env : Env) (imageUrl : String) (fs : FS) : IngestOut :=
  if imageUrl = "" then
    ⟨⟨400, none, "Image URL is required."⟩, fs, Work.zero⟩
  else if ¬ env.urlValid imageUrl then
    ⟨⟨500, none, "An unexpected error occurred."⟩, fs, Work.zero⟩
  else if fs.descriptors.contains (env.hash imageUrl) then
    ⟨⟨200, some (env.hash imageUrl, dziRelPath (env.hash imageUrl)), ""⟩, fs, Work.zero⟩
  else if ¬ env.downloadOk imageUrl then
    ⟨⟨500, none, "Failed to process image from URL."⟩,
      sjsFinV1 env imageUrl (sjsCleanupV1 env imageUrl
        { fs with staging := addUnique fs.staging (sjsUrlTemp env imageUrl) }),
      ⟨[imageUrl], 0, 0, 0, []⟩⟩
  else
    sjsTileRegisterStage env (sjsUrlRecord env imageUrl) (env.hash imageUrl)
      (sjsUrlTemp env imageUrl) (sjsCleanupV1 env imageUrl) (sjsFinV1 env imageUrl)
      { fs with staging := addUnique fs.staging (sjsUrlTemp env imageUrl) }
      ⟨[imageUrl], 0, 0, 0, []⟩

/-- Staging state of the gdal-capable legacy handler after the download and
the conditional conversion attempt (which creates the converted raster). -/
def v2AfterConvertFs (env : Env) (url : String) (fs : FS) : FS :=
  if sjsIsImg env url then
    { fs with staging := addUnique (addUnique fs.staging (sjsUrlTemp env url)) (sjsTiffPath env url) }
  else { fs with staging := addUnique fs.staging (sjsUrlTemp env url) }

/-- Work log of the gdal-capable legacy handler after the download and the
conditional conversion attempt. -/
def v2AfterConvertWork (env : Env) (url : String) : Work :=
  if sjsIsImg env url then ⟨[url], 1, 0, 0, []⟩ else ⟨[url], 0, 0, 0, []⟩

/-- Second and third registrations of `POST /api/process-url` in
`src/backend/server.js` (lines 275-366 and 468-559, textually identical):
the variant with the `gdal_translate` conversion branch for `.IMG` URLs;
`catch` and `finally` additionally unlink the converted raster. -/
def processUrlV2 (env : Env) (imageUrl : String) (fs : FS) : IngestOut :=
  if imageUrl = "" then
    ⟨⟨400, none, "Image URL is required."⟩, fs, Work.zero⟩
  else if ¬ env.urlValid imageUrl then
    ⟨⟨500, none, "An unexpected error occurred."⟩, fs, Work.zero⟩
  else if fs.descriptors.contains (env.hash imageUrl) then
    ⟨⟨200, some (env.hash imageUrl, dziRelPath (env.hash imageUrl)), ""⟩, fs, Work.zero⟩
  else if ¬ env.downloadOk imageUrl then
    ⟨⟨500, none, "Failed to process image from URL."⟩,
      sjsFinV2 env imageUrl (sjsCleanupV2 env imageUrl
        { fs with staging := addUnique fs.staging (sjsUrlTemp env imageUrl) }),
      ⟨[imageUrl], 0, 0, 0, []⟩⟩
  else if sjsIsImg env imageUrl ∧ ¬ env.convertOk (sjsUrlTemp env imageUrl) then
    ⟨⟨500, none, "Failed to convert .IMG to TIFF. Make sure GDAL is installed and the file is a valid PDS image."⟩,
      sjsFinV2 env imageUrl (sjsCleanupV2 env imageUrl (v2AfterConvertFs env imageUrl fs)),
      v2AfterConvertWork env imageUrl⟩
  else
    sjsTileRegisterStage env (sjsUrlRecord env imageUrl) (env.hash imageUrl)
      (if sjsIsImg env imageUrl then sjsTiffPath env imageUrl else sjsUrlTemp env imageUrl)
      (sjsCleanupV2 env imageUrl) (sjsFinV2 env imageUrl)
      (v2AfterConvertFs env imageUrl fs) (v2AfterConvertWork env imageUrl)

/-- The route table of `src/backend/server.js` for `POST /api/process-url`:
the handler is registered three times (lines 172, 275 and 468). -/
def processUrlRoutes : List (Env → String → FS → IngestOut) :=
  [processUrlV1, processUrlV2, processUrlV2]

/-- Express dispatch: layers run in registration order and every handler in
this table terminates the response without calling `next()`, so exactly the
first registered handler serves the request. -/
def dispatchProcessUrl (env : Env) (imageUrl : String) (fs : FS) : IngestOut :=
  match processUrlRoutes with
  | [] => ⟨⟨404, none, "Not found"⟩, fs, Work.zero⟩
  | h :: _ => h env imageUrl fs

/-! ## GET /api/images, annotation endpoints, DELETE /api/images/:id
(hardened variant) -/

/-- The response row built for one tile directory: the catalog display name
when a row with that id exists, else the raw directory id. -/
def entryForDir (db : List ImageRecord) (folderId : String) : ImageEntry :=
  match db.find? (fun r => r.id = folderId) with
  | some r => ⟨folderId, r.name, dziRelPath folderId⟩
  | none => ⟨folderId, folderId, dziRelPath folderId⟩

/-- `GET /api/images`: enumerate the tile directories on disk, enrich each
with the catalog name, sort by name.  `none` models the 500 on a database
read failure. -/
def listImages (env : Env) (fs : FS) : Option (List ImageEntry) :=
  if env.readOk imagesDbPath then
    some ((fs.dirs.map (entryForDir fs.imagesDb)).insertionSort
      (fun a b => charListLe a.name.toList b.name.toList = true))
  else none

/-- `GET /api/images/:id/annotations`. -/
def getAnnots (env : Env) (imageId : String) (fs : FS) : Nat × Option (List JValue) :=
  if imageId = "" ∨ imageId.length > 100 then (400, none)
  else if ¬ env.readOk annotationsDbPath then (500, none)
  else (200, some ((fs.annotationsDb.lookup imageId).getD []))

/-- `POST /api/images/:id/annotations` (hardened variant): validate the
body, then append it to the per-image sequence and persist atomically. -/
def saveAnnot (env : Env) (imageId : String) (body : JValue) (fs : FS) : AnnotOut :=
  if imageId = "" ∨ imageId.length > 100 then ⟨400, none, fs, []⟩
  else if ¬ isObjLike body then ⟨400, none, fs, []⟩
  else if ¬ (truthyOpt (body.getField "id") ∧ truthyOpt (body.getField "text") ∧
             truthyOpt (body.getField "point")) then ⟨400, none, fs, []⟩
  else if (match body.getField "text" with
           | some (.jstr s) => decide (s.length > 500)
           | _ => true) then ⟨400, none, fs, []⟩
  else if (match (body.getField "point").bind (fun p => p.getField "x") with
           | some (.jnum _) => false
           | _ => true) then ⟨400, none, fs, []⟩
  else if (match (body.getField "point").bind (fun p => p.getField "y") with
           | some (.jnum _) => false
           | _ => true) then ⟨400, none, fs, []⟩
  else if ¬ env.readOk annotationsDbPath then ⟨500, none, fs, []⟩
  else if ¬ env.writeOk annotationsDbPath then
    ⟨500, none, fs, writeJsonFileOps annotationsDbPath (env.writeOk annotationsDbPath)⟩
  else
    ⟨201, some body, { fs with annotationsDb := annPush fs.annotationsDb imageId body },
      writeJsonFileOps annotationsDbPath (env.writeOk annotationsDbPath)⟩

/-- `imagesDb.findIndex` plus `splice(imageIndex, 1)`: remove the first
catalog row with the given id, a no-op when the id is absent. -/
def removeFirstRecord : List ImageRecord → String → List ImageRecord
  | [], _ => []
  | r :: rest, delId => if r.id = delId then rest else r :: removeFirstRecord rest delId

/-- `DELETE /api/images/:id` (hardened variant): drop the catalog row and
the annotation key (each tolerant of absence), persist both, then remove
the tile directory — a removal failure is only a warning. -/
def deleteImageRoute (env : Env) (delId : String) (fs : FS) : DeleteOut :=
  if delId = "" ∨ delId.length > 100 then ⟨400, false, fs, []⟩
  else if ¬ (env.readOk imagesDbPath ∧ env.readOk annotationsDbPath) then ⟨500, false, fs, []⟩
  else if ¬ env.writeOk imagesDbPath then
    ⟨500, false, fs, writeJsonFileOps imagesDbPath (env.writeOk imagesDbPath)⟩
  else if ¬ env.writeOk annotationsDbPath then
    ⟨500, false, { fs with imagesDb := removeFirstRecord fs.imagesDb delId },
      writeJsonFileOps imagesDbPath (env.writeOk imagesDbPath)
        ++ writeJsonFileOps annotationsDbPath (env.writeOk annotationsDbPath)⟩
  else if env.rmOk (gigaFolder delId) then
    ⟨200, false,
      { fs with imagesDb := removeFirstRecord fs.imagesDb delId,
                annotationsDb := delKey fs.annotationsDb delId,
                dirs := fs.dirs.filter (fun d => d ≠ delId),
                descriptors := fs.descriptors.filter (fun d => d ≠ delId) },
      writeJsonFileOps imagesDbPath (env.writeOk imagesDbPath)
        ++ writeJsonFileOps annotationsDbPath (env.writeOk annotationsDbPath)⟩
  else
    ⟨200, true,
      { fs with imagesDb := removeFirstRecord fs.imagesDb delId,
                annotationsDb := delKey fs.annotationsDb delId },
      writeJsonFileOps imagesDbPath (env.writeOk imagesDbPath)
        ++ writeJsonFileOps annotationsDbPath (env.writeOk annotationsDbPath)⟩

/-! ## Generic list and store lemmas -/

theorem contains_filter_ne {α : Type} [DecidableEq α] (xs : List α) (p : α) :
    (xs.filter (fun q => q ≠ p)).contains p = false := by
  induction xs with
  | nil => rfl
  | cons a as ih =>
    simp only [List.filter_cons]
    by_cases h : a = p
    · simp [h, ih]
    · simp only [h, decide_not, List.contains_cons, ih]
      simp [Ne.symm h]

theorem contains_addUnique (xs : List String) (x : String) :
    (addUnique xs x).contains x = true := by
  unfold addUnique
  split
  · assumption
  · simp

theorem lookup_append_some {α : Type} {m1 m2 : List (String × α)} {k : String} {v : α} :
    m1.lookup k = some v → (m1 ++ m2).lookup k = some v := by
  induction m1 with
  | nil => intro h; simp [List.lookup] at h
  | cons a rest ih =>
    rcases a with ⟨k0, v0⟩
    intro h
    simp only [List.cons_append, List.lookup] at h ⊢
    cases hk : (k == k0) with
    | true => rw [hk] at h; exact h
    | false => rw [hk] at h; exact ih h

theorem lookup_ensureKey_self (m : AnnStore) (k : String) :
    ((ensureKey m k).lookup k).isSome = true := by
  unfold ensureKey
  split
  · simp_all
  · next hl =>
    induction m with
    | nil => simp [List.lookup]
    | cons a rest ih =>
      rcases a with ⟨k0, v0⟩
      simp only [List.cons_append, List.lookup] at hl ⊢
      cases hk : (k == k0) with
      | true => rw [hk] at hl; simp at hl
      | false => rw [hk] at hl; exact ih hl

theorem lookup_ensureKey_pres (m : AnnStore) (k k' : String) :
    (m.lookup k').isSome = true → ((ensureKey m k).lookup k').isSome = true := by
  intro h
  unfold ensureKey
  split
  · exact h
  · rcases Option.isSome_iff_exists.mp h with ⟨v, hv⟩
    rw [lookup_append_some hv]
    rfl

/-! ## Persistence-discipline predicates -/

/-- Discipline of database-file writes: a plain write only ever targets a
sibling `.tmp` path, and the database paths themselves are only the target
of a rename from their own sibling temp. -/
def dbWriteDiscipline (ops : List FileOp) : Prop :=
  (∀ p, FileOp.write p ∈ ops → p = imagesDbPath ++ ".tmp" ∨ p = annotationsDbPath ++ ".tmp") ∧
  (∀ src dst, FileOp.rename src dst ∈ ops →
     (dst = imagesDbPath ∨ dst = annotationsDbPath) ∧ src = dst ++ ".tmp")

/-- Catalog-annotation invariant: every catalog id has a key in the
annotation store. -/
def catAnnInv (fs : FS) : Prop :=
  ∀ r ∈ fs.imagesDb, (fs.annotationsDb.lookup r.id).isSome = true

theorem discipline_nil : dbWriteDiscipline [] := by
  constructor <;> intros <;> simp_all

theorem discipline_append {xs ys : List FileOp} :
    dbWriteDiscipline xs → dbWriteDiscipline ys → dbWriteDiscipline (xs ++ ys) := by
  rintro ⟨hw1, hr1⟩ ⟨hw2, hr2⟩
  constructor
  · intro p hp
    rcases List.mem_append.mp hp with h | h
    · exact hw1 p h
    · exact hw2 p h
  · intro src dst hp
    rcases List.mem_append.mp hp with h | h
    · exact hr1 src dst h
    · exact hr2 src dst h

theorem discipline_writeJson_images (ok : Bool) :
    dbWriteDiscipline (writeJsonFileOps imagesDbPath ok) := by
  unfold writeJsonFileOps
  cases ok <;> constructor <;> intros <;> simp_all

theorem discipline_writeJson_ann (ok : Bool) :
    dbWriteDiscipline (writeJsonFileOps annotationsDbPath ok) := by
  unfold writeJsonFileOps
  cases ok <;> constructor <;> intros <;> simp_all

/-! ## Cleanup lemmas -/

theorem dropStaging_contains (fs : FS) (p : String) :
    (dropStaging fs p).staging.contains p = false :=
  contains_filter_ne fs.staging p

theorem ingestCleanup_staging (env : Env) (imageId temp : String) (fs : FS) :
    (ingestCleanup env imageId temp fs).staging.contains temp = false := by
  unfold ingestCleanup dropTileDir
  split
  · exact contains_filter_ne fs.staging temp
  · exact contains_filter_ne fs.staging temp

theorem ingestCleanup_dirs (env : Env) (imageId temp : String) (fs : FS)
    (hrm : env.rmOk (gigaFolder imageId) = true) :
    (ingestCleanup env imageId temp fs).dirs.contains imageId = false ∧
    (ingestCleanup env imageId temp fs).descriptors.contains imageId = false := by
  unfold ingestCleanup dropTileDir
  rw [hrm]
  simp only [if_true]
  exact ⟨contains_filter_ne _ _, contains_filter_ne _ _⟩

theorem ingestCleanup_db (env : Env) (imageId temp : String) (fs : FS) :
    (ingestCleanup env imageId temp fs).imagesDb = fs.imagesDb ∧
    (ingestCleanup env imageId temp fs).annotationsDb = fs.annotationsDb := by
  unfold ingestCleanup dropTileDir dropStaging
  split <;> simp

/-! ## registerStage lemmas (hardened database registration) -/

theorem registerStage_work (env : Env) (newRec : ImageRecord) (imageId temp msg : String)
    (fs3 : FS) (w3 : Work) :
    (registerStage env newRec imageId temp msg fs3 w3).work.downloads = w3.downloads ∧
    (registerStage env newRec imageId temp msg fs3 w3).work.conversions = w3.conversions ∧
    (registerStage env newRec imageId temp msg fs3 w3).work.tilings = w3.tilings ∧
    (registerStage env newRec imageId temp msg fs3 w3).work.tilingsOk = w3.tilingsOk := by
  unfold registerStage failOut
  split_ifs <;> simp

theorem registerStage_status (env : Env) (newRec : ImageRecord) (imageId temp msg : String)
    (fs3 : FS) (w3 : Work) :
    (registerStage env newRec imageId temp msg fs3 w3).res.status = 201 ∨
    (registerStage env newRec imageId temp msg fs3 w3).res.status = 500 := by
  unfold registerStage failOut
  split_ifs <;> simp

theorem registerStage_staging (env : Env) (newRec : ImageRecord) (imageId temp msg : String)
    (fs3 : FS) (w3 : Work) :
    (registerStage env newRec imageId temp msg fs3 w3).fs.staging.contains temp = false := by
  unfold registerStage failOut
  split_ifs <;> first
    | exact ingestCleanup_staging env imageId temp _
    | exact dropStaging_contains _ temp

theorem registerStage_201 (env : Env) (newRec : ImageRecord) (imageId temp msg : String)
    (fs3 : FS) (w3 : Work) :
    (registerStage env newRec imageId temp msg fs3 w3).res.status = 201 →
    (registerStage env newRec imageId temp msg fs3 w3).res.payload = some (imageId, dziRelPath imageId) ∧
    (registerStage env newRec imageId temp msg fs3 w3).fs.descriptors = fs3.descriptors ∧
    (registerStage env newRec imageId temp msg fs3 w3).fs.dirs = fs3.dirs := by
  unfold registerStage failOut
  split_ifs <;> intro h <;> simp_all [dropStaging]

theorem registerStage_allok (env : Env) (newRec : ImageRecord) (imageId temp msg : String)
    (fs3 : FS) (w3 : Work)
    (hr1 : env.readOk imagesDbPath = true) (hr2 : env.readOk annotationsDbPath = true)
    (hw1 : env.writeOk imagesDbPath = true) (hw2 : env.writeOk annotationsDbPath = true) :
    (registerStage env newRec imageId temp msg fs3 w3).res.status = 201 := by
  unfold registerStage failOut
  split_ifs <;> simp_all

theorem registerStage_500_cleanup (env : Env) (newRec : ImageRecord) (imageId temp msg : String)
    (fs3 : FS) (w3 : Work)
    (hrm : env.rmOk (gigaFolder imageId) = true) :
    (registerStage env newRec imageId temp msg fs3 w3).res.status = 500 →
    (registerStage env newRec imageId temp msg fs3 w3).fs.dirs.contains imageId = false ∧
    (registerStage env newRec imageId temp msg fs3 w3).fs.descriptors.contains imageId = false := by
  unfold registerStage failOut
  split_ifs <;> intro h <;> first
    | exact ingestCleanup_dirs env imageId temp _ hrm
    | simp_all

theorem registerStage_present (env : Env) (newRec : ImageRecord) (imageId temp msg : String)
    (fs3 : FS) (w3 : Work)
    (hp : (fs3.imagesDb.find? (fun r => r.id = imageId)).isSome = true) :
    (registerStage env newRec imageId temp msg fs3 w3).fs.imagesDb = fs3.imagesDb ∧
    (registerStage env newRec imageId temp msg fs3 w3).fs.annotationsDb = fs3.annotationsDb := by
  unfold registerStage failOut
  split_ifs <;>
    first
      | exact ingestCleanup_db env imageId temp _
      | simp_all [dropStaging]

theorem registerStage_fresh (env : Env) (newRec : ImageRecord) (imageId temp msg : String)
    (fs3 : FS) (w3 : Work)
    (hp : (fs3.imagesDb.find? (fun r => r.id = imageId)).isSome = false) :
    (registerStage env newRec imageId temp msg fs3 w3).res.status = 201 →
    (registerStage env newRec imageId temp msg fs3 w3).fs.imagesDb = fs3.imagesDb ++ [newRec] ∧
    (registerStage env newRec imageId temp msg fs3 w3).fs.annotationsDb = ensureKey fs3.annotationsDb imageId := by
  unfold registerStage failOut
  split_ifs <;> intro h <;> simp_all [dropStaging]

theorem registerStage_db_changed (env : Env) (newRec : ImageRecord) (imageId temp msg : String)
    (fs3 : FS) (w3 : Work) :
    (registerStage env newRec imageId temp msg fs3 w3).fs.imagesDb = fs3.imagesDb ∨
    (registerStage env newRec imageId temp msg fs3 w3).fs.imagesDb = fs3.imagesDb ++ [newRec] := by
  unfold registerStage failOut
  split_ifs <;>
    first
      | exact Or.inl (ingestCleanup_db env imageId temp _).1
      | exact Or.inr (ingestCleanup_db env imageId temp _).1
      | simp_all [dropStaging]

theorem registerStage_inv (env : Env) (newRec : ImageRecord) (imageId temp msg : String)
    (fs3 : FS) (w3 : Work)
    (hrec : newRec.id = imageId)
    (hw1 : env.writeOk imagesDbPath = true) (hw2 : env.writeOk annotationsDbPath = true)
    (hinv : catAnnInv fs3) :
    catAnnInv (registerStage env newRec imageId temp msg fs3 w3).fs := by
  unfold registerStage failOut
  split_ifs
  all_goals intro r hr
  all_goals
    first
      | exact hinv r hr
      | (dsimp only [dropStaging] at hr ⊢
         rcases List.mem_append.mp hr with hold | hnew
         · exact lookup_ensureKey_pres _ _ _ (hinv r hold)
         · simp only [List.mem_singleton] at hnew
           subst hnew
           rw [hrec]
           exact lookup_ensureKey_self _ _)
      | (dsimp only at hr ⊢
         rw [(ingestCleanup_db env imageId temp fs3).2]
         rw [(ingestCleanup_db env imageId temp fs3).1] at hr
         exact hinv r hr)

theorem registerStage_discipline (env : Env) (newRec : ImageRecord) (imageId temp msg : String)
    (fs3 : FS) (w3 : Work)
    (hd : dbWriteDiscipline w3.dbOps) :
    dbWriteDiscipline (registerStage env newRec imageId temp msg fs3 w3).work.dbOps := by
  unfold registerStage failOut
  split_ifs <;>
    first
      | exact hd
      | exact discipline_append hd (discipline_writeJson_images _)
      | exact discipline_append (discipline_append hd (discipline_writeJson_images _)) (discipline_writeJson_ann _)

/-! ## tileRegisterStage lemmas -/

theorem tileRegisterStage_status (env : Env) (newRec : ImageRecord)
    (imageId temp tileInput msg : String) (fs1 : FS) (w1 : Work) :
    (tileRegisterStage env newRec imageId temp tileInput msg fs1 w1).res.status = 201 ∨
    (tileRegisterStage env newRec imageId temp tileInput msg fs1 w1).res.status = 500 := by
  unfold tileRegisterStage failOut
  split_ifs
  · exact registerStage_status env newRec imageId temp msg _ _
  · simp

theorem tileRegisterStage_staging (env : Env) (newRec : ImageRecord)
    (imageId temp tileInput msg : String) (fs1 : FS) (w1 : Work) :
    (tileRegisterStage env newRec imageId temp tileInput msg fs1 w1).fs.staging.contains temp = false := by
  unfold tileRegisterStage failOut
  split_ifs
  · exact registerStage_staging env newRec imageId temp msg _ _
  · exact ingestCleanup_staging env imageId temp _

theorem tileRegisterStage_downloads (env : Env) (newRec : ImageRecord)
    (imageId temp tileInput msg : String) (fs1 : FS) (w1 : Work) :
    (tileRegisterStage env newRec imageId temp tileInput msg fs1 w1).work.downloads = w1.downloads ∧
    (tileRegisterStage env newRec imageId temp tileInput msg fs1 w1).work.conversions = w1.conversions := by
  unfold tileRegisterStage failOut
  split_ifs
  · have h := registerStage_work env newRec imageId temp msg
      { fs1 with dirs := addUnique fs1.dirs imageId,
                 descriptors := addUnique fs1.descriptors imageId }
      { w1 with tilings := w1.tilings + 1, tilingsOk := w1.tilingsOk + 1 }
    exact ⟨h.1, h.2.1⟩
  · exact ⟨rfl, rfl⟩

theorem tileRegisterStage_201 (env : Env) (newRec : ImageRecord)
    (imageId temp tileInput msg : String) (fs1 : FS) (w1 : Work) :
    (tileRegisterStage env newRec imageId temp tileInput msg fs1 w1).res.status = 201 →
    (tileRegisterStage env newRec imageId temp tileInput msg fs1 w1).res.payload = some (imageId, dziRelPath imageId) ∧
    (tileRegisterStage env newRec imageId temp tileInput msg fs1 w1).fs.descriptors.contains imageId = true ∧
    (tileRegisterStage env newRec imageId temp tileInput msg fs1 w1).work.tilings = w1.tilings + 1 ∧
    (tileRegisterStage env newRec imageId temp tileInput msg fs1 w1).work.tilingsOk = w1.tilingsOk + 1 := by
  unfold tileRegisterStage failOut
  split_ifs with h
  · intro hc
    have hreg := registerStage_201 env newRec imageId temp msg _ _ hc
    have hwork := registerStage_work env newRec imageId temp msg
      { fs1 with dirs := addUnique fs1.dirs imageId,
                 descriptors := addUnique fs1.descriptors imageId }
      { w1 with tilings := w1.tilings + 1, tilingsOk := w1.tilingsOk + 1 }
    refine ⟨hreg.1, ?_, ?_, ?_⟩
    · rw [hreg.2.1]
      exact contains_addUnique _ _
    · rw [hwork.2.2.1]
    · rw [hwork.2.2.2]
  · intro hc; simp at hc

theorem tileRegisterStage_allok (env : Env) (newRec : ImageRecord)
    (imageId temp tileInput msg : String) (fs1 : FS) (w1 : Work)
    (ht : env.tileOk tileInput = true)
    (hr1 : env.readOk imagesDbPath = true) (hr2 : env.readOk annotationsDbPath = true)
    (hw1 : env.writeOk imagesDbPath = true) (hw2 : env.writeOk annotationsDbPath = true) :
    (tileRegisterStage env newRec imageId temp tileInput msg fs1 w1).res.status = 201 := by
  unfold tileRegisterStage failOut
  split_ifs
  · exact registerStage_allok env newRec imageId temp msg _ _ hr1 hr2 hw1 hw2

theorem tileRegisterStage_500_cleanup (env : Env) (newRec : ImageRecord)
    (imageId temp tileInput msg : String) (fs1 : FS) (w1 : Work)
    (hrm : env.rmOk (gigaFolder imageId) = true) :
    (tileRegisterStage env newRec imageId temp tileInput msg fs1 w1).res.status = 500 →
    (tileRegisterStage env newRec imageId temp tileInput msg fs1 w1).fs.dirs.contains imageId = false ∧
    (tileRegisterStage env newRec imageId temp tileInput msg fs1 w1).fs.descriptors.contains imageId = false := by
  unfold tileRegisterStage failOut
  split_ifs with h
  · exact registerStage_500_cleanup env newRec imageId temp msg _ _ hrm
  · intro _
    exact ingestCleanup_dirs env imageId temp _ hrm

theorem tileRegisterStage_present (env : Env) (newRec : ImageRecord)
    (imageId temp tileInput msg : String) (fs1 : FS) (w1 : Work)
    (hp : (fs1.imagesDb.find? (fun r => r.id = imageId)).isSome = true) :
    (tileRegisterStage env newRec imageId temp tileInput msg fs1 w1).fs.imagesDb = fs1.imagesDb ∧
    (tileRegisterStage env newRec imageId temp tileInput msg fs1 w1).fs.annotationsDb = fs1.annotationsDb := by
  unfold tileRegisterStage failOut
  split_ifs
  · exact registerStage_present env newRec imageId temp msg _ _ hp
  · exact ingestCleanup_db env imageId temp _

theorem tileRegisterStage_fresh (env : Env) (newRec : ImageRecord)
    (imageId temp tileInput msg : String) (fs1 : FS) (w1 : Work)
    (hp : (fs1.imagesDb.find? (fun r => r.id = imageId)).isSome = false) :
    (tileRegisterStage env newRec imageId temp tileInput msg fs1 w1).res.status = 201 →
    (tileRegisterStage env newRec imageId temp tileInput msg fs1 w1).fs.imagesDb = fs1.imagesDb ++ [newRec] ∧
    (tileRegisterStage env newRec imageId temp tileInput msg fs1 w1).fs.annotationsDb = ensureKey fs1.annotationsDb imageId := by
  unfold tileRegisterStage failOut
  split_ifs
  · exact registerStage_fresh env newRec imageId temp msg _ _ hp
  · intro hc; simp at hc

theorem tileRegisterStage_db_changed (env : Env) (newRec : ImageRecord)
    (imageId temp tileInput msg : String) (fs1 : FS) (w1 : Work) :
    (tileRegisterStage env newRec imageId temp tileInput msg fs1 w1).fs.imagesDb = fs1.imagesDb ∨
    (tileRegisterStage env newRec imageId temp tileInput msg fs1 w1).fs.imagesDb = fs1.imagesDb ++ [newRec] := by
  unfold tileRegisterStage failOut
  split_ifs
  · exact registerStage_db_changed env newRec imageId temp msg _ _
  · exact Or.inl (ingestCleanup_db env imageId temp _).1

theorem tileRegisterStage_changed_tiled (env : Env) (newRec : ImageRecord)
    (imageId temp tileInput msg : String) (fs1 : FS) (w1 : Work) :
    (tileRegisterStage env newRec imageId temp tileInput msg fs1 w1).fs.imagesDb ≠ fs1.imagesDb →
    (tileRegisterStage env newRec imageId temp tileInput msg fs1 w1).work.tilingsOk = w1.tilingsOk + 1 := by
  unfold tileRegisterStage failOut
  split_ifs
  · intro _
    have hwork := registerStage_work env newRec imageId temp msg
      { fs1 with dirs := addUnique fs1.dirs imageId,
                 descriptors := addUnique fs1.descriptors imageId }
      { w1 with tilings := w1.tilings + 1, tilingsOk := w1.tilingsOk + 1 }
    rw [hwork.2.2.2]
  · intro hc
    exact absurd (ingestCleanup_db env imageId temp _).1 hc

theorem tileRegisterStage_inv (env : Env) (newRec : ImageRecord)
    (imageId temp tileInput msg : String) (fs1 : FS) (w1 : Work)
    (hrec : newRec.id = imageId)
    (hw1 : env.writeOk imagesDbPath = true) (hw2 : env.writeOk annotationsDbPath = true)
    (hinv : catAnnInv fs1) :
    catAnnInv (tileRegisterStage env newRec imageId temp tileInput msg fs1 w1).fs := by
  unfold tileRegisterStage failOut
  split_ifs
  · exact registerStage_inv env newRec imageId temp msg _ _ hrec hw1 hw2 hinv
  · intro r hr
    dsimp only at hr ⊢
    rw [(ingestCleanup_db env imageId temp _).2]
    rw [(ingestCleanup_db env imageId temp _).1] at hr
    exact hinv r hr

theorem tileRegisterStage_discipline (env : Env) (newRec : ImageRecord)
    (imageId temp tileInput msg : String) (fs1 : FS) (w1 : Work)
    (hd : dbWriteDiscipline w1.dbOps) :
    dbWriteDiscipline (tileRegisterStage env newRec imageId temp tileInput msg fs1 w1).work.dbOps := by
  unfold tileRegisterStage failOut
  split_ifs
  · exact registerStage_discipline env newRec imageId temp msg _ _ hd
  · exact hd

/-! ## nasaDownloadStage lemmas -/

theorem nasaDownloadStage_status (env : Env) (nasaId title imageId temp url : String) (fs : FS) :
    (nasaDownloadStage env nasaId title imageId temp url fs).res.status = 201 ∨
    (nasaDownloadStage env nasaId title imageId temp url fs).res.status = 500 := by
  unfold nasaDownloadStage failOut
  split_ifs
  · exact tileRegisterStage_status env _ imageId temp temp _ _ _
  · simp

theorem nasaDownloadStage_staging (env : Env) (nasaId title imageId temp url : String) (fs : FS) :
    (nasaDownloadStage env nasaId title imageId temp url fs).fs.staging.contains temp = false := by
  unfold nasaDownloadStage failOut
  split_ifs
  · exact tileRegisterStage_staging env _ imageId temp temp _ _ _
  · exact ingestCleanup_staging env imageId temp _

theorem nasaDownloadStage_work (env : Env) (nasaId title imageId temp url : String) (fs : FS) :
    (nasaDownloadStage env nasaId title imageId temp url fs).work.downloads = [url] ∧
    (nasaDownloadStage env nasaId title imageId temp url fs).work.conversions = 0 := by
  unfold nasaDownloadStage failOut
  split_ifs
  · have h := tileRegisterStage_downloads env (nasaRecord env nasaId title) imageId temp temp
      "Failed to process NASA image" { fs with staging := addUnique fs.staging temp } ⟨[url], 0, 0, 0, []⟩
    exact ⟨h.1, h.2⟩
  · exact ⟨rfl, rfl⟩

theorem nasaDownloadStage_201 (env : Env) (nasaId title imageId temp url : String) (fs : FS) :
    (nasaDownloadStage env nasaId title imageId temp url fs).res.status = 201 →
    (nasaDownloadStage env nasaId title imageId temp url fs).res.payload = some (imageId, dziRelPath imageId) ∧
    (nasaDownloadStage env nasaId title imageId temp url fs).fs.descriptors.contains imageId = true ∧
    (nasaDownloadStage env nasaId title imageId temp url fs).work.tilings = 1 ∧
    (nasaDownloadStage env nasaId title imageId temp url fs).work.tilingsOk = 1 := by
  unfold nasaDownloadStage failOut
  split_ifs
  · intro hc
    exact tileRegisterStage_201 env _ imageId temp temp _ _ _ hc
  · intro hc; simp at hc

theorem nasaDownloadStage_allok (env : Env) (nasaId title imageId temp url : String) (fs : FS)
    (hd : env.downloadOk url = true) (ht : env.tileOk temp = true)
    (hr1 : env.readOk imagesDbPath = true) (hr2 : env.readOk annotationsDbPath = true)
    (hw1 : env.writeOk imagesDbPath = true) (hw2 : env.writeOk annotationsDbPath = true) :
    (nasaDownloadStage env nasaId title imageId temp url fs).res.status = 201 := by
  unfold nasaDownloadStage failOut
  split_ifs
  · exact tileRegisterStage_allok env _ imageId temp temp _ _ _ ht hr1 hr2 hw1 hw2

theorem nasaDownloadStage_500_cleanup (env : Env) (nasaId title imageId temp url : String) (fs : FS)
    (hrm : env.rmOk (gigaFolder imageId) = true) :
    (nasaDownloadStage env nasaId title imageId temp url fs).res.status = 500 →
    (nasaDownloadStage env nasaId title imageId temp url fs).fs.dirs.contains imageId = false ∧
    (nasaDownloadStage env nasaId title imageId temp url fs).fs.descriptors.contains imageId = false := by
  unfold nasaDownloadStage failOut
  split_ifs
  · exact tileRegisterStage_500_cleanup env _ imageId temp temp _ _ _ hrm
  · intro _
    exact ingestCleanup_dirs env imageId temp _ hrm

theorem nasaDownloadStage_present (env : Env) (nasaId title imageId temp url : String) (fs : FS)
    (hp : (fs.imagesDb.find? (fun r => r.id = imageId)).isSome = true) :
    (nasaDownloadStage env nasaId title imageId temp url fs).fs.imagesDb = fs.imagesDb ∧
    (nasaDownloadStage env nasaId title imageId temp url fs).fs.annotationsDb = fs.annotationsDb := by
  unfold nasaDownloadStage failOut
  split_ifs
  · exact tileRegisterStage_present env _ imageId temp temp _ _ _ hp
  · exact ingestCleanup_db env imageId temp _

theorem nasaDownloadStage_fresh (env : Env) (nasaId title imageId temp url : String) (fs : FS)
    (hp : (fs.imagesDb.find? (fun r => r.id = imageId)).isSome = false) :
    (nasaDownloadStage env nasaId title imageId temp url fs).res.status = 201 →
    (nasaDownloadStage env nasaId title imageId temp url fs).fs.imagesDb = fs.imagesDb ++ [nasaRecord env nasaId title] ∧
    (nasaDownloadStage env nasaId title imageId temp url fs).fs.annotationsDb = ensureKey fs.annotationsDb imageId := by
  unfold nasaDownloadStage failOut
  split_ifs
  · exact tileRegisterStage_fresh env _ imageId temp temp _ _ _ hp
  · intro hc; simp at hc

theorem nasaDownloadStage_db_changed (env : Env) (nasaId title imageId temp url : String) (fs : FS) :
    (nasaDownloadStage env nasaId title imageId temp url fs).fs.imagesDb = fs.imagesDb ∨
    (nasaDownloadStage env nasaId title imageId temp url fs).fs.imagesDb = fs.imagesDb ++ [nasaRecord env nasaId title] := by
  unfold nasaDownloadStage failOut
  split_ifs
  · exact tileRegisterStage_db_changed env _ imageId temp temp _ _ _
  · exact Or.inl (ingestCleanup_db env imageId temp _).1

theorem nasaDownloadStage_changed_tiled (env : Env) (nasaId title imageId temp url : String) (fs : FS) :
    (nasaDownloadStage env nasaId title imageId temp url fs).fs.imagesDb ≠ fs.imagesDb →
    (nasaDownloadStage env nasaId title imageId temp url fs).work.tilingsOk = 1 := by
  unfold nasaDownloadStage failOut
  split_ifs
  · exact tileRegisterStage_changed_tiled env _ imageId temp temp _ _ _
  · intro hc
    exact absurd (ingestCleanup_db env imageId temp _).1 hc

theorem nasaDownloadStage_inv (env : Env) (nasaId title imageId temp url : String) (fs : FS)
    (hrec : (nasaRecord env nasaId title).id = imageId)
    (hw1 : env.writeOk imagesDbPath = true) (hw2 : env.writeOk annotationsDbPath = true)
    (hinv : catAnnInv fs) :
    catAnnInv (nasaDownloadStage env nasaId title imageId temp url fs).fs := by
  unfold nasaDownloadStage failOut
  split_ifs
  · exact tileRegisterStage_inv env _ imageId temp temp _ _ _ hrec hw1 hw2 hinv
  · intro r hr
    dsimp only at hr ⊢
    rw [(ingestCleanup_db env imageId temp _).2]
    rw [(ingestCleanup_db env imageId temp _).1] at hr
    exact hinv r hr

theorem nasaDownloadStage_discipline (env : Env) (nasaId title imageId temp url : String) (fs : FS) :
    dbWriteDiscipline (nasaDownloadStage env nasaId title imageId temp url fs).work.dbOps := by
  unfold nasaDownloadStage failOut
  split_ifs
  · exact tileRegisterStage_discipline env _ imageId temp temp _ _ _ discipline_nil
  · exact discipline_nil

/-! ## urlDownloadStage lemmas -/

theorem urlDownloadStage_status (env : Env) (url imageId temp : String) (fs : FS) :
    (urlDownloadStage env url imageId temp fs).res.status = 201 ∨
    (urlDownloadStage env url imageId temp fs).res.status = 500 := by
  unfold urlDownloadStage failOut
  split_ifs <;>
    first
      | exact tileRegisterStage_status env _ imageId temp temp _ _ _
      | simp

theorem urlDownloadStage_staging (env : Env) (url imageId temp : String) (fs : FS) :
    (urlDownloadStage env url imageId temp fs).fs.staging.contains temp = false := by
  unfold urlDownloadStage failOut
  split_ifs <;>
    first
      | exact tileRegisterStage_staging env _ imageId temp temp _ _ _
      | exact ingestCleanup_staging env imageId temp _

theorem urlDownloadStage_work (env : Env) (url imageId temp : String) (fs : FS) :
    (urlDownloadStage env url imageId temp fs).work.downloads = [url] ∧
    (urlDownloadStage env url imageId temp fs).work.conversions = 0 := by
  unfold urlDownloadStage failOut
  split_ifs <;>
    first
      | (have h := tileRegisterStage_downloads env (urlRecord env url) imageId temp temp
          "Failed to process image from URL" { fs with staging := addUnique fs.staging temp } ⟨[url], 0, 0, 0, []⟩
         exact ⟨h.1, h.2⟩)
      | exact ⟨rfl, rfl⟩

theorem urlDownloadStage_201 (env : Env) (url imageId temp : String) (fs : FS) :
    (urlDownloadStage env url imageId temp fs).res.status = 201 →
    (urlDownloadStage env url imageId temp fs).res.payload = some (imageId, dziRelPath imageId) ∧
    (urlDownloadStage env url imageId temp fs).fs.descriptors.contains imageId = true ∧
    (urlDownloadStage env url imageId temp fs).work.tilings = 1 ∧
    (urlDownloadStage env url imageId temp fs).work.tilingsOk = 1 := by
  unfold urlDownloadStage failOut
  split_ifs <;>
    first
      | exact fun hc => tileRegisterStage_201 env _ imageId temp temp _ _ _ hc
      | (intro hc; simp at hc)

theorem urlDownloadStage_allok (env : Env) (url imageId temp : String) (fs : FS)
    (hd : env.downloadOk url = true)
    (hct : (match env.contentType url with
            | some ct => ! listStartsWithCh ct.toList "image/".toList
            | none => false) = false)
    (hsz : env.downloadSize url ≠ 0)
    (ht : env.tileOk temp = true)
    (hr1 : env.readOk imagesDbPath = true) (hr2 : env.readOk annotationsDbPath = true)
    (hw1 : env.writeOk imagesDbPath = true) (hw2 : env.writeOk annotationsDbPath = true) :
    (urlDownloadStage env url imageId temp fs).res.status = 201 := by
  unfold urlDownloadStage failOut
  split_ifs <;>
    first
      | exact tileRegisterStage_allok env _ imageId temp temp _ _ _ ht hr1 hr2 hw1 hw2
      | simp_all

theorem urlDownloadStage_500_cleanup (env : Env) (url imageId temp : String) (fs : FS)
    (hrm : env.rmOk (gigaFolder imageId) = true) :
    (urlDownloadStage env url imageId temp fs).res.status = 500 →
    (urlDownloadStage env url imageId temp fs).fs.dirs.contains imageId = false ∧
    (urlDownloadStage env url imageId temp fs).fs.descriptors.contains imageId = false := by
  unfold urlDownloadStage failOut
  split_ifs <;>
    first
      | exact tileRegisterStage_500_cleanup env _ imageId temp temp _ _ _ hrm
      | exact fun _ => ingestCleanup_dirs env imageId temp _ hrm

theorem urlDownloadStage_present (env : Env) (url imageId temp : String) (fs : FS)
    (hp : (fs.imagesDb.find? (fun r => r.id = imageId)).isSome = true) :
    (urlDownloadStage env url imageId temp fs).fs.imagesDb = fs.imagesDb ∧
    (urlDownloadStage env url imageId temp fs).fs.annotationsDb = fs.annotationsDb := by
  unfold urlDownloadStage failOut
  split_ifs <;>
    first
      | exact tileRegisterStage_present env _ imageId temp temp _ _ _ hp
      | exact ingestCleanup_db env imageId temp _

theorem urlDownloadStage_fresh (env : Env) (url imageId temp : String) (fs : FS)
    (hp : (fs.imagesDb.find? (fun r => r.id = imageId)).isSome = false) :
    (urlDownloadStage env url imageId temp fs).res.status = 201 →
    (urlDownloadStage env url imageId temp fs).fs.imagesDb = fs.imagesDb ++ [urlRecord env url] ∧
    (urlDownloadStage env url imageId temp fs).fs.annotationsDb = ensureKey fs.annotationsDb imageId := by
  unfold urlDownloadStage failOut
  split_ifs <;>
    first
      | exact tileRegisterStage_fresh env _ imageId temp temp _ _ _ hp
      | (intro hc; simp at hc)

theorem urlDownloadStage_db_changed (env : Env) (url imageId temp : String) (fs : FS) :
    (urlDownloadStage env url imageId temp fs).fs.imagesDb = fs.imagesDb ∨
    (urlDownloadStage env url imageId temp fs).fs.imagesDb = fs.imagesDb ++ [urlRecord env url] := by
  unfold urlDownloadStage failOut
  split_ifs <;>
    first
      | exact tileRegisterStage_db_changed env _ imageId temp temp _ _ _
      | exact Or.inl (ingestCleanup_db env imageId temp _).1

theorem urlDownloadStage_changed_tiled (env : Env) (url imageId temp : String) (fs : FS) :
    (urlDownloadStage env url imageId temp fs).fs.imagesDb ≠ fs.imagesDb →
    (urlDownloadStage env url imageId temp fs).work.tilingsOk = 1 := by
  unfold urlDownloadStage failOut
  split_ifs <;>
    first
      | exact tileRegisterStage_changed_tiled env _ imageId temp temp _ _ _
      | exact fun hc => absurd (ingestCleanup_db env imageId temp _).1 hc

theorem urlDownloadStage_inv (env : Env) (url imageId temp : String) (fs : FS)
    (hrec : (urlRecord env url).id = imageId)
    (hw1 : env.writeOk imagesDbPath = true) (hw2 : env.writeOk annotationsDbPath = true)
    (hinv : catAnnInv fs) :
    catAnnInv (urlDownloadStage env url imageId temp fs).fs := by
  unfold urlDownloadStage failOut
  split_ifs <;>
    first
      | exact tileRegisterStage_inv env _ imageId temp temp _ _ _ hrec hw1 hw2 hinv
      | (intro r hr
         dsimp only at hr ⊢
         rw [(ingestCleanup_db env imageId temp _).2]
         rw [(ingestCleanup_db env imageId temp _).1] at hr
         exact hinv r hr)

theorem urlDownloadStage_discipline (env : Env) (url imageId temp : String) (fs : FS) :
    dbWriteDiscipline (urlDownloadStage env url imageId temp fs).work.dbOps := by
  unfold urlDownloadStage failOut
  split_ifs <;>
    first
      | exact tileRegisterStage_discipline env _ imageId temp temp _ _ _ discipline_nil
      | exact discipline_nil

/-! ## processNasaImage top-level lemmas -/

theorem processNasaImage_cacheHit (env : Env) (nasaId title : String) (imageUrl : Option String) (fs : FS)
    (hn1 : nasaId ≠ "") (hn2 : nasaId.length ≤ 100)
    (ht1 : title ≠ "") (ht2 : title.length ≤ 255)
    (hu : (match imageUrl with | some u => ! env.urlValid u | none => false) = false)
    (hc : fs.descriptors.contains (env.hash nasaId) = true) :
    processNasaImage env nasaId title imageUrl fs =
      ⟨⟨200, some (env.hash nasaId, dziRelPath (env.hash nasaId)), ""⟩, fs, Work.zero⟩ := by
  unfold processNasaImage
  rw [if_neg (by push_neg; exact ⟨hn1, by omega⟩)]
  rw [if_neg (by push_neg; exact ⟨ht1, by omega⟩)]
  rw [hu, hc]
  simp

theorem processNasaImage_fresh_someUrl (env : Env) (nasaId title u : String) (fs : FS)
    (hn1 : nasaId ≠ "") (hn2 : nasaId.length ≤ 100)
    (ht1 : title ≠ "") (ht2 : title.length ≤ 255)
    (hu : env.urlValid u = true)
    (hc : fs.descriptors.contains (env.hash nasaId) = false) :
    processNasaImage env nasaId title (some u) fs =
      nasaDownloadStage env nasaId title (env.hash nasaId) (nasaTempPath (env.hash nasaId)) u fs := by
  unfold processNasaImage
  rw [if_neg (by push_neg; exact ⟨hn1, by omega⟩)]
  rw [if_neg (by push_neg; exact ⟨ht1, by omega⟩)]
  rw [hc]
  simp [hu]

theorem processNasaImage_fresh_noUrl (env : Env) (nasaId title : String) (fs : FS)
    (hn1 : nasaId ≠ "") (hn2 : nasaId.length ≤ 100)
    (ht1 : title ≠ "") (ht2 : title.length ≤ 255)
    (hc : fs.descriptors.contains (env.hash nasaId) = false)
    (ha : env.assetOk nasaId = true) :
    processNasaImage env nasaId title none fs =
      (match selectNasaUrl (env.assetItems nasaId) with
       | none => failOut env (env.hash nasaId) (nasaTempPath (env.hash nasaId))
           "Failed to process NASA image: Could not find a downloadable image URL" fs Work.zero
       | some url =>
           nasaDownloadStage env nasaId title (env.hash nasaId) (nasaTempPath (env.hash nasaId)) url fs) := by
  unfold processNasaImage
  rw [if_neg (by push_neg; exact ⟨hn1, by omega⟩)]
  rw [if_neg (by push_neg; exact ⟨ht1, by omega⟩)]
  rw [hc]
  simp [ha]

theorem processNasaImage_201_fresh (env : Env) (nasaId title : String) (imageUrl : Option String) (fs : FS) :
    (processNasaImage env nasaId title imageUrl fs).res.status = 201 →
    fs.descriptors.contains (env.hash nasaId) = false := by
  unfold processNasaImage
  split_ifs <;> intro h <;> simp_all

theorem processNasaImage_201_work (env : Env) (nasaId title : String) (imageUrl : Option String) (fs : FS) :
    (processNasaImage env nasaId title imageUrl fs).res.status = 201 →
    (processNasaImage env nasaId title imageUrl fs).work.tilings = 1 ∧
    (processNasaImage env nasaId title imageUrl fs).work.tilingsOk = 1 := by
  unfold processNasaImage
  split_ifs <;> intro h <;>
    first
      | simp at h
      | (revert h
         split <;> intro h
         · simp [failOut] at h
         · exact ⟨(nasaDownloadStage_201 env nasaId title _ _ _ fs h).2.2.1,
                  (nasaDownloadStage_201 env nasaId title _ _ _ fs h).2.2.2⟩)

theorem processNasaImage_discipline (env : Env) (nasaId title : String) (imageUrl : Option String) (fs : FS) :
    dbWriteDiscipline (processNasaImage env nasaId title imageUrl fs).work.dbOps := by
  unfold processNasaImage
  split_ifs <;>
    first
      | exact discipline_nil
      | (split
         · exact discipline_nil
         · exact nasaDownloadStage_discipline env nasaId title _ _ _ fs)

theorem processNasaImage_inv (env : Env) (nasaId title : String) (imageUrl : Option String) (fs : FS)
    (hw1 : env.writeOk imagesDbPath = true) (hw2 : env.writeOk annotationsDbPath = true)
    (hinv : catAnnInv fs) :
    catAnnInv (processNasaImage env nasaId title imageUrl fs).fs := by
  unfold processNasaImage
  split_ifs <;>
    first
      | exact hinv
      | (split
         · intro r hr
           dsimp only [failOut] at hr ⊢
           rw [(ingestCleanup_db env _ _ _).2]
           rw [(ingestCleanup_db env _ _ _).1] at hr
           exact hinv r hr
         · exact nasaDownloadStage_inv env nasaId title _ _ _ fs rfl hw1 hw2 hinv)

theorem processNasaImage_present (env : Env) (nasaId title : String) (imageUrl : Option String) (fs : FS)
    (hp : (fs.imagesDb.find? (fun r => r.id = env.hash nasaId)).isSome = true) :
    (processNasaImage env nasaId title imageUrl fs).fs.imagesDb = fs.imagesDb := by
  unfold processNasaImage
  split_ifs <;>
    first
      | rfl
      | (split
         · exact (ingestCleanup_db env _ _ _).1
         · exact (nasaDownloadStage_present env nasaId title _ _ _ fs hp).1)

theorem processNasaImage_changed_tiled (env : Env) (nasaId title : String) (imageUrl : Option String) (fs : FS) :
    (processNasaImage env nasaId title imageUrl fs).fs.imagesDb ≠ fs.imagesDb →
    (processNasaImage env nasaId title imageUrl fs).work.tilingsOk = 1 := by
  unfold processNasaImage
  split_ifs <;>
    first
      | exact fun hc => absurd rfl hc
      | (split
         · exact fun hc => absurd (ingestCleanup_db env _ _ _).1 hc
         · exact nasaDownloadStage_changed_tiled env nasaId title _ _ _ fs)

theorem processNasaImage_500_cleanup (env : Env) (nasaId title : String) (imageUrl : Option String) (fs : FS)
    (hrm : env.rmOk (gigaFolder (env.hash nasaId)) = true) :
    (processNasaImage env nasaId title imageUrl fs).res.status = 500 →
    (processNasaImage env nasaId title imageUrl fs).work.downloads ≠ [] →
    (processNasaImage env nasaId title imageUrl fs).fs.dirs.contains (env.hash nasaId) = false ∧
    (processNasaImage env nasaId title imageUrl fs).fs.descriptors.contains (env.hash nasaId) = false ∧
    (processNasaImage env nasaId title imageUrl fs).fs.staging.contains (nasaTempPath (env.hash nasaId)) = false := by
  unfold processNasaImage
  split_ifs <;> intro h hdl <;>
    first
      | simp at h
      | (revert h hdl
         split <;> intro h hdl
         · exact absurd rfl hdl
         · exact ⟨(nasaDownloadStage_500_cleanup env nasaId title _ _ _ fs hrm h).1,
                  (nasaDownloadStage_500_cleanup env nasaId title _ _ _ fs hrm h).2,
                  nasaDownloadStage_staging env nasaId title _ _ _ fs⟩)

theorem processNasaImage_201_staging (env : Env) (nasaId title : String) (imageUrl : Option String) (fs : FS) :
    (processNasaImage env nasaId title imageUrl fs).res.status = 201 →
    (processNasaImage env nasaId title imageUrl fs).fs.staging.contains (nasaTempPath (env.hash nasaId)) = false := by
  unfold processNasaImage
  split_ifs <;> intro h <;>
    first
      | simp at h
      | (revert h
         split <;> intro h
         · simp [failOut] at h
         · exact nasaDownloadStage_staging env nasaId title _ _ _ fs)

/-! ## processUrl top-level lemmas -/

theorem processUrl_cacheHit (env : Env) (url : String) (fs : FS)
    (h1 : url ≠ "") (h2 : url.length ≤ 2048) (h3 : env.urlValid url = true)
    (hc : fs.descriptors.contains (env.hash url) = true) :
    processUrl env url fs =
      ⟨⟨200, some (env.hash url, dziRelPath (env.hash url)), ""⟩, fs, Work.zero⟩ := by
  unfold processUrl
  rw [if_neg h1, if_neg (by omega), h3, hc]
  simp

theorem processUrl_fresh (env : Env) (url : String) (fs : FS)
    (h1 : url ≠ "") (h2 : url.length ≤ 2048) (h3 : env.urlValid url = true)
    (hc : fs.descriptors.contains (env.hash url) = false) :
    processUrl env url fs = urlDownloadStage env url (env.hash url) (p4UrlTemp env url) fs := by
  unfold processUrl
  rw [if_neg h1, if_neg (by omega), h3, hc]
  simp

theorem processUrl_201_fresh (env : Env) (url : String) (fs : FS) :
    (processUrl env url fs).res.status = 201 →
    fs.descriptors.contains (env.hash url) = false := by
  unfold processUrl
  split_ifs <;> intro h <;> simp_all

theorem processUrl_201_work (env : Env) (url : String) (fs : FS) :
    (processUrl env url fs).res.status = 201 →
    (processUrl env url fs).work.tilings = 1 ∧
    (processUrl env url fs).work.tilingsOk = 1 := by
  unfold processUrl
  split_ifs <;> intro h <;>
    first
      | simp at h
      | exact ⟨(urlDownloadStage_201 env url _ _ fs h).2.2.1,
               (urlDownloadStage_201 env url _ _ fs h).2.2.2⟩

theorem processUrl_discipline (env : Env) (url : String) (fs : FS) :
    dbWriteDiscipline (processUrl env url fs).work.dbOps := by
  unfold processUrl
  split_ifs <;>
    first
      | exact discipline_nil
      | exact urlDownloadStage_discipline env url _ _ fs

theorem processUrl_inv (env : Env) (url : String) (fs : FS)
    (hw1 : env.writeOk imagesDbPath = true) (hw2 : env.writeOk annotationsDbPath = true)
    (hinv : catAnnInv fs) :
    catAnnInv (processUrl env url fs).fs := by
  unfold processUrl
  split_ifs <;>
    first
      | exact hinv
      | exact urlDownloadStage_inv env url _ _ fs rfl hw1 hw2 hinv

theorem processUrl_present (env : Env) (url : String) (fs : FS)
    (hp : (fs.imagesDb.find? (fun r => r.id = env.hash url)).isSome = true) :
    (processUrl env url fs).fs.imagesDb = fs.imagesDb := by
  unfold processUrl
  split_ifs <;>
    first
      | rfl
      | exact (urlDownloadStage_present env url _ _ fs hp).1

theorem processUrl_changed_tiled (env : Env) (url : String) (fs : FS) :
    (processUrl env url fs).fs.imagesDb ≠ fs.imagesDb →
    (processUrl env url fs).work.tilingsOk = 1 := by
  unfold processUrl
  split_ifs <;>
    first
      | exact fun hc => absurd rfl hc
      | exact urlDownloadStage_changed_tiled env url _ _ fs

theorem processUrl_500_cleanup (env : Env) (url : String) (fs : FS)
    (hrm : env.rmOk (gigaFolder (env.hash url)) = true) :
    (processUrl env url fs).res.status = 500 →
    (processUrl env url fs).work.downloads ≠ [] →
    (processUrl env url fs).fs.dirs.contains (env.hash url) = false ∧
    (processUrl env url fs).fs.descriptors.contains (env.hash url) = false ∧
    (processUrl env url fs).fs.staging.contains (p4UrlTemp env url) = false := by
  unfold processUrl
  split_ifs <;> intro h hdl <;>
    first
      | simp at h
      | exact ⟨(urlDownloadStage_500_cleanup env url _ _ fs hrm h).1,
               (urlDownloadStage_500_cleanup env url _ _ fs hrm h).2,
               urlDownloadStage_staging env url _ _ fs⟩

theorem processUrl_201_staging (env : Env) (url : String) (fs : FS) :
    (processUrl env url fs).res.status = 201 →
    (processUrl env url fs).fs.staging.contains (p4UrlTemp env url) = false := by
  unfold processUrl
  split_ifs <;> intro h <;>
    first
      | simp at h
      | exact fun _ => urlDownloadStage_staging env url _ _ fs
      | exact urlDownloadStage_staging env url _ _ fs

/-! ## Legacy handler lemmas -/

theorem contains_false_filter {α : Type} [DecidableEq α] (xs : List α) (f : α → Bool) (p : α) :
    xs.contains p = false → (xs.filter f).contains p = false := by
  induction xs with
  | nil => intro _; rfl
  | cons a as ih =>
    intro h
    simp only [List.contains_cons, Bool.or_eq_false_iff] at h
    simp only [List.filter_cons]
    split
    · simp only [List.contains_cons, Bool.or_eq_false_iff]
      exact ⟨h.1, ih h.2⟩
    · exact ih h.2

theorem dropStaging_pres (fs : FS) (p q : String) :
    fs.staging.contains q = false → (dropStaging fs p).staging.contains q = false :=
  contains_false_filter fs.staging _ q

theorem dropTileDir_staging (env : Env) (fs : FS) (imageId : String) :
    (dropTileDir env fs imageId).staging = fs.staging := by
  unfold dropTileDir
  split <;> rfl

theorem dropTileDir_contains (env : Env) (fs : FS) (imageId : String)
    (hrm : env.rmOk (gigaFolder imageId) = true) :
    (dropTileDir env fs imageId).dirs.contains imageId = false ∧
    (dropTileDir env fs imageId).descriptors.contains imageId = false := by
  unfold dropTileDir
  rw [hrm]
  simp only [if_true]
  exact ⟨contains_filter_ne _ _, contains_filter_ne _ _⟩

theorem sjsFinV2_staging_temp (env : Env) (url : String) (fs : FS) :
    (sjsFinV2 env url fs).staging.contains (sjsUrlTemp env url) = false := by
  unfold sjsFinV2
  split_ifs
  · exact dropStaging_pres _ _ _ (dropStaging_contains fs _)
  · exact dropStaging_contains fs _

theorem sjsFinV2_staging_tiff (env : Env) (url : String) (fs : FS) :
    (sjsFinV2 env url fs).staging.contains (sjsTiffPath env url) = false := by
  unfold sjsFinV2 sjsTiffPath
  split_ifs
  · exact dropStaging_contains _ _
  · exact dropStaging_contains fs _

theorem sjsFinV2_dirs (env : Env) (url : String) (fs : FS) :
    (sjsFinV2 env url fs).dirs = fs.dirs ∧ (sjsFinV2 env url fs).descriptors = fs.descriptors := by
  unfold sjsFinV2 dropStaging
  split_ifs <;> exact ⟨rfl, rfl⟩

theorem sjsFinV2_cleanupV2_dirs (env : Env) (url : String) (fs : FS)
    (hrm : env.rmOk (gigaFolder (env.hash url)) = true) :
    (sjsFinV2 env url (sjsCleanupV2 env url fs)).dirs.contains (env.hash url) = false ∧
    (sjsFinV2 env url (sjsCleanupV2 env url fs)).descriptors.contains (env.hash url) = false := by
  rw [(sjsFinV2_dirs env url _).1, (sjsFinV2_dirs env url _).2]
  unfold sjsCleanupV2
  exact dropTileDir_contains env _ _ hrm

theorem sjsFinV1_staging_temp (env : Env) (url : String) (fs : FS) :
    (sjsFinV1 env url fs).staging.contains (sjsUrlTemp env url) = false :=
  dropStaging_contains fs _

theorem sjsFinV1_dirs (env : Env) (url : String) (fs : FS) :
    (sjsFinV1 env url fs).dirs = fs.dirs ∧ (sjsFinV1 env url fs).descriptors = fs.descriptors :=
  ⟨rfl, rfl⟩

theorem sjsFinV1_cleanupV1_dirs (env : Env) (url : String) (fs : FS)
    (hrm : env.rmOk (gigaFolder (env.hash url)) = true) :
    (sjsFinV1 env url (sjsCleanupV1 env url fs)).dirs.contains (env.hash url) = false ∧
    (sjsFinV1 env url (sjsCleanupV1 env url fs)).descriptors.contains (env.hash url) = false := by
  rw [(sjsFinV1_dirs env url _).1, (sjsFinV1_dirs env url _).2]
  unfold sjsCleanupV1
  exact dropTileDir_contains env _ _ hrm

theorem sjsRegisterStage_status (env : Env) (newRec : ImageRecord) (imageId : String)
    (cleanup fin : FS → FS) (fs3 : FS) (w3 : Work) :
    (sjsRegisterStage env newRec imageId cleanup fin fs3 w3).res.status = 201 ∨
    (sjsRegisterStage env newRec imageId cleanup fin fs3 w3).res.status = 500 := by
  unfold sjsRegisterStage
  split_ifs <;> simp

theorem sjsRegisterStage_work (env : Env) (newRec : ImageRecord) (imageId : String)
    (cleanup fin : FS → FS) (fs3 : FS) (w3 : Work) :
    (sjsRegisterStage env newRec imageId cleanup fin fs3 w3).work.downloads = w3.downloads ∧
    (sjsRegisterStage env newRec imageId cleanup fin fs3 w3).work.conversions = w3.conversions ∧
    (sjsRegisterStage env newRec imageId cleanup fin fs3 w3).work.tilings = w3.tilings ∧
    (sjsRegisterStage env newRec imageId cleanup fin fs3 w3).work.tilingsOk = w3.tilingsOk := by
  unfold sjsRegisterStage
  split_ifs <;> simp

theorem sjsRegisterStage_staging (env : Env) (newRec : ImageRecord) (imageId : String)
    (cleanup fin : FS → FS) (fs3 : FS) (w3 : Work) (q : String)
    (hfin : ∀ fs', (fin fs').staging.contains q = false) :
    (sjsRegisterStage env newRec imageId cleanup fin fs3 w3).fs.staging.contains q = false := by
  unfold sjsRegisterStage
  split_ifs <;> exact hfin _

theorem sjsRegisterStage_500_dirs (env : Env) (newRec : ImageRecord) (imageId : String)
    (cleanup fin : FS → FS) (fs3 : FS) (w3 : Work)
    (hcd : ∀ fs', (fin (cleanup fs')).dirs.contains imageId = false ∧
                  (fin (cleanup fs')).descriptors.contains imageId = false) :
    (sjsRegisterStage env newRec imageId cleanup fin fs3 w3).res.status = 500 →
    (sjsRegisterStage env newRec imageId cleanup fin fs3 w3).fs.dirs.contains imageId = false ∧
    (sjsRegisterStage env newRec imageId cleanup fin fs3 w3).fs.descriptors.contains imageId = false := by
  unfold sjsRegisterStage
  split_ifs <;> intro h <;> first
    | exact hcd _
    | simp_all

theorem sjsTileRegisterStage_status (env : Env) (newRec : ImageRecord) (imageId tileInput : String)
    (cleanup fin : FS → FS) (fs1 : FS) (w1 : Work) :
    (sjsTileRegisterStage env newRec imageId tileInput cleanup fin fs1 w1).res.status = 201 ∨
    (sjsTileRegisterStage env newRec imageId tileInput cleanup fin fs1 w1).res.status = 500 := by
  unfold sjsTileRegisterStage
  split_ifs
  · exact sjsRegisterStage_status env newRec imageId cleanup fin _ _
  · simp

theorem sjsTileRegisterStage_work (env : Env) (newRec : ImageRecord) (imageId tileInput : String)
    (cleanup fin : FS → FS) (fs1 : FS) (w1 : Work) :
    (sjsTileRegisterStage env newRec imageId tileInput cleanup fin fs1 w1).work.downloads = w1.downloads ∧
    (sjsTileRegisterStage env newRec imageId tileInput cleanup fin fs1 w1).work.conversions = w1.conversions := by
  unfold sjsTileRegisterStage
  split_ifs
  · have h := sjsRegisterStage_work env newRec imageId cleanup fin
      { fs1 with dirs := addUnique fs1.dirs imageId,
                 descriptors := addUnique fs1.descriptors imageId }
      { w1 with tilings := w1.tilings + 1, tilingsOk := w1.tilingsOk + 1 }
    exact ⟨h.1, h.2.1⟩
  · exact ⟨rfl, rfl⟩

theorem sjsTileRegisterStage_staging (env : Env) (newRec : ImageRecord) (imageId tileInput : String)
    (cleanup fin : FS → FS) (fs1 : FS) (w1 : Work) (q : String)
    (hfin : ∀ fs', (fin fs').staging.contains q = false)
    (hfc : ∀ fs', (fin (cleanup fs')).staging.contains q = false) :
    (sjsTileRegisterStage env newRec imageId tileInput cleanup fin fs1 w1).fs.staging.contains q = false := by
  unfold sjsTileRegisterStage
  split_ifs
  · exact sjsRegisterStage_staging env newRec imageId cleanup fin _ _ q hfin
  · exact hfc _

theorem sjsTileRegisterStage_500_dirs (env : Env) (newRec : ImageRecord) (imageId tileInput : String)
    (cleanup fin : FS → FS) (fs1 : FS) (w1 : Work)
    (hcd : ∀ fs', (fin (cleanup fs')).dirs.contains imageId = false ∧
                  (fin (cleanup fs')).descriptors.contains imageId = false) :
    (sjsTileRegisterStage env newRec imageId tileInput cleanup fin fs1 w1).res.status = 500 →
    (sjsTileRegisterStage env newRec imageId tileInput cleanup fin fs1 w1).fs.dirs.contains imageId = false ∧
    (sjsTileRegisterStage env newRec imageId tileInput cleanup fin fs1 w1).fs.descriptors.contains imageId = false := by
  unfold sjsTileRegisterStage
  split_ifs
  · exact sjsRegisterStage_500_dirs env newRec imageId cleanup fin _ _ hcd
  · intro _
    exact hcd _

theorem processUrlV1_conversions (env : Env) (url : String) (fs : FS) :
    (processUrlV1 env url fs).work.conversions = 0 := by
  unfold processUrlV1
  split_ifs <;>
    first
      | rfl
      | exact (sjsTileRegisterStage_work env _ _ _ _ _ _ _).2

theorem processUrlV2_500_cleanup (env : Env) (url : String) (fs : FS)
    (hrm : env.rmOk (gigaFolder (env.hash url)) = true) :
    (processUrlV2 env url fs).res.status = 500 →
    (processUrlV2 env url fs).work.downloads ≠ [] →
    (processUrlV2 env url fs).fs.dirs.contains (env.hash url) = false ∧
    (processUrlV2 env url fs).fs.descriptors.contains (env.hash url) = false ∧
    (processUrlV2 env url fs).fs.staging.contains (sjsUrlTemp env url) = false ∧
    (processUrlV2 env url fs).fs.staging.contains (sjsTiffPath env url) = false := by
  unfold processUrlV2
  split_ifs <;> intro h hdl <;>
    first
      | (exfalso; simp at h; done)
      | exact absurd rfl hdl
      | exact ⟨(sjsFinV2_cleanupV2_dirs env url _ hrm).1,
               (sjsFinV2_cleanupV2_dirs env url _ hrm).2,
               sjsFinV2_staging_temp env url _,
               sjsFinV2_staging_tiff env url _⟩
      | exact ⟨(sjsTileRegisterStage_500_dirs env _ _ _ _ _ _ _
                  (fun fs' => sjsFinV2_cleanupV2_dirs env url fs' hrm) h).1,
               (sjsTileRegisterStage_500_dirs env _ _ _ _ _ _ _
                  (fun fs' => sjsFinV2_cleanupV2_dirs env url fs' hrm) h).2,
               sjsTileRegisterStage_staging env _ _ _ _ _ _ _ _
                  (sjsFinV2_staging_temp env url) (fun fs' => sjsFinV2_staging_temp env url _),
               sjsTileRegisterStage_staging env _ _ _ _ _ _ _ _
                  (sjsFinV2_staging_tiff env url) (fun fs' => sjsFinV2_staging_tiff env url _)⟩

theorem processUrlV2_201_staging (env : Env) (url : String) (fs : FS) :
    (processUrlV2 env url fs).res.status = 201 →
    (processUrlV2 env url fs).fs.staging.contains (sjsUrlTemp env url) = false ∧
    (processUrlV2 env url fs).fs.staging.contains (sjsTiffPath env url) = false := by
  unfold processUrlV2
  split_ifs <;> intro h <;>
    first
      | (exfalso; simp at h; done)
      | exact ⟨sjsTileRegisterStage_staging env _ _ _ _ _ _ _ _
                  (sjsFinV2_staging_temp env url) (fun fs' => sjsFinV2_staging_temp env url _),
               sjsTileRegisterStage_staging env _ _ _ _ _ _ _ _
                  (sjsFinV2_staging_tiff env url) (fun fs' => sjsFinV2_staging_tiff env url _)⟩

/-! ## Annotation store and endpoint support lemmas -/

theorem lookup_setKey_self {α : Type} (m : List (String × α)) (k : String) (v : α) :
    (setKey m k v).lookup k = some v := by
  induction m with
  | nil => simp [setKey, List.lookup]
  | cons a rest ih =>
    rcases a with ⟨k0, v0⟩
    unfold setKey
    split_ifs with hk
    · subst hk
      simp [List.lookup]
    · simp only [List.lookup]
      cases hb : (k == k0) with
      | true => simp at hb; exact absurd hb.symm hk
      | false => exact ih

theorem lookup_append_none {α : Type} (m2 : List (String × α)) {m1 : List (String × α)} {k : String} :
    m1.lookup k = none → (m1 ++ m2).lookup k = m2.lookup k := by
  induction m1 with
  | nil => intro _; rfl
  | cons a rest ih =>
    rcases a with ⟨k0, v0⟩
    intro h
    simp only [List.cons_append, List.lookup] at h ⊢
    cases hk : (k == k0) with
    | true => rw [hk] at h; simp at h
    | false => rw [hk] at h; exact ih h

theorem lookup_annPush (m : AnnStore) (k : String) (v : JValue) :
    (annPush m k v).lookup k = some ((m.lookup k).getD [] ++ [v]) := by
  unfold annPush
  split
  · next cur hcur =>
    rw [lookup_setKey_self, hcur]
    rfl
  · next hnone =>
    rw [lookup_append_none _ hnone, hnone]
    simp [List.lookup]

theorem lookup_delKey {α : Type} (m : List (String × α)) (k : String) :
    (delKey m k).lookup k = none := by
  induction m with
  | nil => rfl
  | cons a rest ih =>
    rcases a with ⟨k0, v0⟩
    unfold delKey at ih ⊢
    simp only [List.filter_cons]
    split
    · next hkeep =>
      simp only [decide_eq_true_eq] at hkeep
      simp only [List.lookup]
      cases hk : (k == k0) with
      | true => simp at hk; exact absurd hk.symm hkeep
      | false => exact ih
    · exact ih

theorem removeFirstRecord_absent (db : List ImageRecord) (delId : String)
    (h : ∀ r ∈ db, r.id ≠ delId) :
    removeFirstRecord db delId = db := by
  induction db with
  | nil => rfl
  | cons r rest ih =>
    unfold removeFirstRecord
    rw [if_neg (h r (by simp))]
    rw [ih (fun r' hr' => h r' (by simp [hr']))]

theorem entryForDir_id (db : List ImageRecord) (d : String) :
    (entryForDir db d).id = d := by
  unfold entryForDir
  split <;> rfl

theorem listImages_mem (env : Env) (fs : FS) (l : List ImageEntry)
    (hl : listImages env fs = some l) :
    ∀ e ∈ l, ∃ d ∈ fs.dirs, e = entryForDir fs.imagesDb d := by
  intro e he
  unfold listImages at hl
  split_ifs at hl
  · rcases hl with ⟨rfl⟩
    rcases List.mem_map.mp ((List.mem_insertionSort _).mp he) with ⟨d, hd, he2⟩
    exact ⟨d, hd, he2.symm⟩

theorem contains_false_not_mem {α : Type} [DecidableEq α] {xs : List α} {a : α}
    (h : xs.contains a = false) : a ∉ xs := by
  induction xs with
  | nil => simp
  | cons b bs ih =>
    simp only [List.contains_cons, Bool.or_eq_false_iff] at h
    simp only [List.mem_cons]
    rintro (rfl | hm)
    · simp at h
    · exact ih h.2 hm

theorem listImages_excludes (env : Env) (fs : FS) (delId : String)
    (hdirs : fs.dirs.contains delId = false) :
    ∀ l, listImages env fs = some l → ∀ e ∈ l, e.id ≠ delId := by
  intro l hl e he
  rcases listImages_mem env fs l hl e he with ⟨d, hd, rfl⟩
  rw [entryForDir_id]
  intro hde
  subst hde
  exact contains_false_not_mem hdirs hd

theorem saveAnnot_discipline (env : Env) (imageId : String) (body : JValue) (fs : FS) :
    dbWriteDiscipline (saveAnnot env imageId body fs).dbOps := by
  unfold saveAnnot
  split_ifs <;>
    first
      | exact discipline_nil
      | exact discipline_writeJson_ann _

theorem deleteImageRoute_discipline (env : Env) (delId : String) (fs : FS) :
    dbWriteDiscipline (deleteImageRoute env delId fs).dbOps := by
  unfold deleteImageRoute
  split_ifs <;>
    first
      | exact discipline_nil
      | exact discipline_writeJson_images _
      | exact discipline_append (discipline_writeJson_images _) (discipline_writeJson_ann _)

/-! ## URL selection support lemmas -/

theorem itemHrefHas_href {sub : String} {it : Item} (h : itemHrefHas sub it = true) :
    ∃ s, it.href = some s ∧ s ≠ "" := by
  unfold itemHrefHas at h
  cases hh : it.href with
  | none => rw [hh] at h; simp at h
  | some s =>
    rw [hh] at h
    simp only [Bool.and_eq_true, decide_eq_true_eq] at h
    exact ⟨s, rfl, by simpa using h.1⟩

theorem itemIsOrig_href {it : Item} (h : itemIsOrig it = true) :
    ∃ s, it.href = some s ∧ s ≠ "" := by
  unfold itemIsOrig at h
  rcases Bool.or_eq_true_iff.mp h with h1 | h1 <;> exact itemHrefHas_href h1

theorem itemHrefJpg_href {it : Item} (h : itemHrefJpg it = true) :
    ∃ s, it.href = some s ∧ s ≠ "" := by
  unfold itemHrefJpg at h
  cases hh : it.href with
  | none => rw [hh] at h; simp at h
  | some s =>
    rw [hh] at h
    simp only [Bool.and_eq_true, decide_eq_true_eq] at h
    exact ⟨s, rfl, by simpa using h.1⟩

theorem selectNasaUrl_orig (items : List Item) (it : Item)
    (h : items.find? itemIsOrig = some it) :
    ∃ s, s ≠ "" ∧ it.href = some s ∧ selectNasaUrl items = some s := by
  rcases itemIsOrig_href (List.find?_some h) with ⟨s, hs, hne⟩
  refine ⟨s, hne, hs, ?_⟩
  unfold selectNasaUrl
  rw [h]
  simp [hs]

theorem selectNasaUrl_large (items : List Item) (it : Item)
    (ho : items.find? itemIsOrig = none)
    (h : items.find? (itemHrefHas "~large.jpg") = some it) :
    ∃ s, s ≠ "" ∧ it.href = some s ∧ selectNasaUrl items = some s := by
  rcases itemHrefHas_href (List.find?_some h) with ⟨s, hs, hne⟩
  refine ⟨s, hne, hs, ?_⟩
  unfold selectNasaUrl
  rw [ho, h]
  simp [hs]

theorem selectNasaUrl_jpg (items : List Item) (it : Item)
    (ho : items.find? itemIsOrig = none)
    (hl : items.find? (itemHrefHas "~large.jpg") = none)
    (h : items.find? itemHrefJpg = some it) :
    ∃ s, s ≠ "" ∧ it.href = some s ∧ selectNasaUrl items = some s := by
  rcases itemHrefJpg_href (List.find?_some h) with ⟨s, hs, hne⟩
  refine ⟨s, hne, hs, ?_⟩
  unfold selectNasaUrl
  rw [ho, hl, h]
  simp [hs]

theorem selectNasaUrl_none (items : List Item)
    (ho : items.find? itemIsOrig = none)
    (hl : items.find? (itemHrefHas "~large.jpg") = none)
    (hj : items.find? itemHrefJpg = none) :
    selectNasaUrl items = none := by
  unfold selectNasaUrl
  rw [ho, hl, hj]
  rfl

/-! ## Fresh-append top-level lemmas -/

theorem processNasaImage_201_append (env : Env) (nasaId title : String)
    (imageUrl : Option String) (fs : FS)
    (hp : (fs.imagesDb.find? (fun r => r.id = env.hash nasaId)).isSome = false) :
    (processNasaImage env nasaId title imageUrl fs).res.status = 201 →
    (processNasaImage env nasaId title imageUrl fs).fs.imagesDb = fs.imagesDb ++ [nasaRecord env nasaId title] ∧
    ((processNasaImage env nasaId title imageUrl fs).fs.annotationsDb.lookup (env.hash nasaId)).isSome = true := by
  unfold processNasaImage
  split_ifs <;> intro h <;>
    first
      | (exfalso; simp at h; done)
      | (revert h
         split <;> intro h
         · simp [failOut] at h
         · have hf := nasaDownloadStage_fresh env nasaId title _ _ _ fs hp h
           exact ⟨hf.1, by rw [hf.2]; exact lookup_ensureKey_self _ _⟩)

theorem processUrl_201_append (env : Env) (url : String) (fs : FS)
    (hp : (fs.imagesDb.find? (fun r => r.id = env.hash url)).isSome = false) :
    (processUrl env url fs).res.status = 201 →
    (processUrl env url fs).fs.imagesDb = fs.imagesDb ++ [urlRecord env url] ∧
    ((processUrl env url fs).fs.annotationsDb.lookup (env.hash url)).isSome = true := by
  unfold processUrl
  split_ifs <;> intro h <;>
    first
      | (exfalso; simp at h; done)
      | (have hf := urlDownloadStage_fresh env url _ _ fs hp h
         exact ⟨hf.1, by rw [hf.2]; exact lookup_ensureKey_self _ _⟩)

/-! ## Concrete environments for witnesses and counterexamples -/

/-- An environment in which every external collaborator succeeds. -/
def wEnv : Env :=
  { hash := fun s => "h-" ++ s
    now := "2024-01-01T00:00:00Z"
    urlValid := fun _ => true
    urlPathname := fun _ => "/moon.jpg"
    assetOk := fun _ => true
    assetItems := fun _ => [⟨some "https://images-assets.nasa.gov/a~large.jpg"⟩]
    downloadOk := fun _ => true
    contentType := fun _ => none
    downloadSize := fun _ => 1
    convertOk := fun _ => true
    tileOk := fun _ => true
    readOk := fun _ => true
    writeOk := fun _ => true
    rmOk := fun _ => true }

/-- The freshly initialized server state: no tile directory, no staging
file, empty catalog, empty annotation store. -/
def emptyFS : FS := ⟨[], [], [], [], []⟩

/-! ## Claims -/

/-- C9: `GET /api/images` returns exactly one entry per tile directory
present on disk; the entry carries the name of the catalog row when a row with
that id exists and falls back to the raw directory id otherwise; a catalog
row without a tile directory is not listed, and a tile directory without a
catalog row is still listed. -/
theorem C9_listing_directory_truth (env : Env) (fs : FS)
    (hread : env.readOk imagesDbPath = true) :
    ∃ l, listImages env fs = some l ∧
      l.length = fs.dirs.length ∧
      (∀ d ∈ fs.dirs, entryForDir fs.imagesDb d ∈ l) ∧
      (∀ e ∈ l, e.id ∈ fs.dirs ∧
        e.name = (match fs.imagesDb.find? (fun r => r.id = e.id) with
                  | some r => r.name
                  | none => e.id) ∧
        e.path = dziRelPath e.id) ∧
      (∀ r ∈ fs.imagesDb, r.id ∉ fs.dirs → ∀ e ∈ l, e.id ≠ r.id) := by
  unfold listImages
  rw [if_pos hread]
  refine ⟨_, rfl, ?_, ?_, ?_, ?_⟩
  · rw [List.length_insertionSort, List.length_map]
  · intro d hd
    exact (List.mem_insertionSort _).mpr (List.mem_map_of_mem _ hd)
  · intro e he
    rcases List.mem_map.mp ((List.mem_insertionSort _).mp he) with ⟨d, hd, rfl⟩
    refine ⟨?_, ?_, ?_⟩
    · rw [entryForDir_id]
      exact hd
    · rw [entryForDir_id]
      unfold entryForDir
      cases hf : fs.imagesDb.find? (fun r => r.id = d) <;> simp [hf]
    · rw [entryForDir_id]
      unfold entryForDir
      cases hf : fs.imagesDb.find? (fun r => r.id = d) <;> simp [hf]
  · intro r _ hnot e he hde
    rcases List.mem_map.mp ((List.mem_insertionSort _).mp he) with ⟨d, hd, rfl⟩
    rw [entryForDir_id] at hde
    exact hnot (hde ▸ hd)

theorem C9_listing_directory_truth_witness :
    ∃ l, listImages wEnv ⟨["i1", "i2"], ["i1", "i2"], [], [⟨"i1", "n1", "p1", "url", "u", "t"⟩, ⟨"zz", "z", "p", "url", "u", "t"⟩], []⟩ = some l ∧
      l.length = 2 ∧
      (∀ e ∈ l, e.id = "i1" ∨ e.id = "i2") ∧
      (∀ e ∈ l, e.id ≠ "zz") := by
  rcases C9_listing_directory_truth wEnv
      ⟨["i1", "i2"], ["i1", "i2"], [], [⟨"i1", "n1", "p1", "url", "u", "t"⟩, ⟨"zz", "z", "p", "url", "u", "t"⟩], []⟩ rfl with
    ⟨l, hl, hlen, _, hmem, hexc⟩
  refine ⟨l, hl, hlen, ?_, ?_⟩
  · intro e he
    have h2 := (hmem e he).1
    simpa using h2
  · intro e he
    exact fun hde => hexc ⟨"zz", "z", "p", "url", "u", "t"⟩ (by simp) (by decide) e he hde

/-- C10: for both ingestion endpoints a cache hit (pre-existing
`tiles.dzi`) is answered with HTTP 200, a freshly built pyramid with 201,
and a 201 can only arise from a fresh build: the descriptor was absent at
entry and exactly one tiling succeeded. -/
theorem C10_cache_200_fresh_201 (env : Env) (nasaId title url : String)
    (imageUrl : Option String) (fs : FS)
    (hn1 : nasaId ≠ "") (hn2 : nasaId.length ≤ 100)
    (ht1 : title ≠ "") (ht2 : title.length ≤ 255)
    (hiu : (match imageUrl with | some u => ! env.urlValid u | none => false) = false)
    (hu1 : url ≠ "") (hu2 : url.length ≤ 2048) (hu3 : env.urlValid url = true)
    (hok : env.downloadOk url = true)
    (hct : (match env.contentType url with
            | some ct => ! listStartsWithCh ct.toList "image/".toList
            | none => false) = false)
    (hsz : env.downloadSize url ≠ 0)
    (htile : ∀ p, env.tileOk p = true)
    (hread : ∀ p, env.readOk p = true) (hwrite : ∀ p, env.writeOk p = true) :
    (fs.descriptors.contains (env.hash nasaId) = true →
       (processNasaImage env nasaId title imageUrl fs).res.status = 200) ∧
    (fs.descriptors.contains (env.hash url) = true →
       (processUrl env url fs).res.status = 200) ∧
    (fs.descriptors.contains (env.hash nasaId) = false →
       (processNasaImage env nasaId title (some url) fs).res.status = 201) ∧
    (fs.descriptors.contains (env.hash url) = false →
       (processUrl env url fs).res.status = 201) ∧
    ((processNasaImage env nasaId title imageUrl fs).res.status = 201 →
       fs.descriptors.contains (env.hash nasaId) = false ∧
       (processNasaImage env nasaId title imageUrl fs).work.tilingsOk = 1) ∧
    ((processUrl env url fs).res.status = 201 →
       fs.descriptors.contains (env.hash url) = false ∧
       (processUrl env url fs).work.tilingsOk = 1) := by
  refine ⟨?_, ?_, ?_, ?_, ?_, ?_⟩
  · intro hc
    rw [processNasaImage_cacheHit env nasaId title imageUrl fs hn1 hn2 ht1 ht2 hiu hc]
  · intro hc
    rw [processUrl_cacheHit env url fs hu1 hu2 hu3 hc]
  · intro hc
    rw [processNasaImage_fresh_someUrl env nasaId title url fs hn1 hn2 ht1 ht2 hu3 hc]
    exact nasaDownloadStage_allok env nasaId title _ _ url fs hok (htile _) (hread _) (hread _)
      (hwrite _) (hwrite _)
  · intro hc
    rw [processUrl_fresh env url fs hu1 hu2 hu3 hc]
    exact urlDownloadStage_allok env url _ _ fs hok hct hsz (htile _) (hread _) (hread _)
      (hwrite _) (hwrite _)
  · intro h
    exact ⟨processNasaImage_201_fresh env nasaId title imageUrl fs h,
           (processNasaImage_201_work env nasaId title imageUrl fs h).2⟩
  · intro h
    exact ⟨processUrl_201_fresh env url fs h,
           (processUrl_201_work env url fs h).2⟩

theorem C10_cache_200_fresh_201_witness :
    (processNasaImage wEnv "apollo" "Apollo" (some "http://x/a.jpg") emptyFS).res.status = 201 ∧
    (processUrl wEnv "http://x/a.jpg" ⟨["h-http://x/a.jpg"], ["h-http://x/a.jpg"], [], [], []⟩).res.status = 200 := by
  constructor
  · exact (C10_cache_200_fresh_201 wEnv "apollo" "Apollo" "http://x/a.jpg" (some "http://x/a.jpg") emptyFS
      (by decide) (by decide) (by decide) (by decide) rfl (by decide) (by decide) rfl rfl rfl
      (by decide) (fun _ => rfl) (fun _ => rfl) (fun _ => rfl)).2.2.1 rfl
  · exact (C10_cache_200_fresh_201 wEnv "apollo" "Apollo" "http://x/a.jpg" (some "http://x/a.jpg")
      ⟨["h-http://x/a.jpg"], ["h-http://x/a.jpg"], [], [], []⟩
      (by decide) (by decide) (by decide) (by decide) rfl (by decide) (by decide) rfl rfl rfl
      (by decide) (fun _ => rfl) (fun _ => rfl) (fun _ => rfl)).2.1 (by decide)

/-- C2: every write of the catalog file and the annotations file performed
by the mutating operations (ingestion registration, annotation append,
image deletion) goes through the write-temp-then-rename discipline of
`writeJsonFile`: no operation ever writes either database path directly,
and the database paths are only the target of a rename from their own
sibling temp file. -/
theorem C2_atomic_database_writes (env : Env) (nasaId title url delId annId : String)
    (imageUrl : Option String) (body : JValue) (fs : FS) :
    dbWriteDiscipline (processNasaImage env nasaId title imageUrl fs).work.dbOps ∧
    dbWriteDiscipline (processUrl env url fs).work.dbOps ∧
    dbWriteDiscipline (saveAnnot env annId body fs).dbOps ∧
    dbWriteDiscipline (deleteImageRoute env delId fs).dbOps :=
  ⟨processNasaImage_discipline env nasaId title imageUrl fs,
   processUrl_discipline env url fs,
   saveAnnot_discipline env annId body fs,
   deleteImageRoute_discipline env delId fs⟩

theorem C2_atomic_database_writes_witness :
    imagesDbPath ++ ".tmp" = imagesDbPath ++ ".tmp" ∨
    imagesDbPath ++ ".tmp" = annotationsDbPath ++ ".tmp" :=
  (C2_atomic_database_writes wEnv "apollo" "Apollo" "http://x/a.jpg" "someid" "img1"
      (some "http://x/a.jpg") JValue.null emptyFS).1.1
    (imagesDbPath ++ ".tmp") (by decide)

def c5Env : Env := { wEnv with urlPathname := fun _ => "/rover.img" }

def c5Url : String := "http://example.com/rover.img"

/-- C5: the `.IMG` conversion stage of the legacy server is unreachable:
Express serves `POST /api/process-url` with the first registered handler,
which has no gdal branch, so a `.img` URL is tiled raw with zero
`gdal_translate` invocations — while the later duplicate registration of
the same route would have converted it before tiling. -/
theorem C5_img_conversion_unreachable :
    dispatchProcessUrl c5Env c5Url emptyFS = processUrlV1 c5Env c5Url emptyFS ∧
    sjsIsImg c5Env c5Url = true ∧
    (dispatchProcessUrl c5Env c5Url emptyFS).res.status = 201 ∧
    (dispatchProcessUrl c5Env c5Url emptyFS).work.conversions = 0 ∧
    (∀ env url fs, (processUrlV1 env url fs).work.conversions = 0) ∧
    (processUrlV2 c5Env c5Url emptyFS).work.conversions = 1 ∧
    (processUrlV2 c5Env c5Url emptyFS).res.status = 201 :=
  ⟨rfl, by decide, by rfl, by rfl, processUrlV1_conversions, by rfl, by rfl⟩

/-- C1: ingestion is idempotent per logical source: the id is the hash of
the NASA asset id or the raw URL, so repeated calls yield the same
`{id, path}`; a pre-existing `tiles.dzi` makes the call return immediately
with the filesystem untouched and zero download/conversion/tiling work;
and under serialized calls the build work runs exactly once — the second
call is a cache hit. -/
theorem C1_ingest_idempotent (env : Env) (nasaId title url : String) (fs : FS)
    (hn1 : nasaId ≠ "") (hn2 : nasaId.length ≤ 100)
    (ht1 : title ≠ "") (ht2 : title.length ≤ 255)
    (hu1 : url ≠ "") (hu2 : url.length ≤ 2048) (hu3 : env.urlValid url = true)
    (hok : ∀ u, env.downloadOk u = true)
    (hct : ∀ u, env.contentType u = none)
    (hsz : ∀ u, env.downloadSize u ≠ 0)
    (htile : ∀ p, env.tileOk p = true)
    (hread : ∀ p, env.readOk p = true) (hwrite : ∀ p, env.writeOk p = true) :
    (fs.descriptors.contains (env.hash nasaId) = true →
       processNasaImage env nasaId title (some url) fs =
         ⟨⟨200, some (env.hash nasaId, dziRelPath (env.hash nasaId)), ""⟩, fs, Work.zero⟩) ∧
    (fs.descriptors.contains (env.hash url) = true →
       processUrl env url fs =
         ⟨⟨200, some (env.hash url, dziRelPath (env.hash url)), ""⟩, fs, Work.zero⟩) ∧
    (fs.descriptors.contains (env.hash nasaId) = false →
       (processNasaImage env nasaId title (some url) fs).res.payload =
         some (env.hash nasaId, dziRelPath (env.hash nasaId)) ∧
       (processNasaImage env nasaId title (some url) fs).work.downloads = [url] ∧
       (processNasaImage env nasaId title (some url) fs).work.tilings = 1 ∧
       (processNasaImage env nasaId title (some url) fs).work.conversions = 0 ∧
       processNasaImage env nasaId title (some url) (processNasaImage env nasaId title (some url) fs).fs =
         ⟨⟨200, some (env.hash nasaId, dziRelPath (env.hash nasaId)), ""⟩,
           (processNasaImage env nasaId title (some url) fs).fs, Work.zero⟩) ∧
    (fs.descriptors.contains (env.hash url) = false →
       (processUrl env url fs).res.payload = some (env.hash url, dziRelPath (env.hash url)) ∧
       (processUrl env url fs).work.downloads = [url] ∧
       (processUrl env url fs).work.tilings = 1 ∧
       (processUrl env url fs).work.conversions = 0 ∧
       processUrl env url (processUrl env url fs).fs =
         ⟨⟨200, some (env.hash url, dziRelPath (env.hash url)), ""⟩,
           (processUrl env url fs).fs, Work.zero⟩) := by
  refine ⟨?_, ?_, ?_, ?_⟩
  · intro hc
    exact processNasaImage_cacheHit env nasaId title (some url) fs hn1 hn2 ht1 ht2 (by simp [hu3]) hc
  · intro hc
    exact processUrl_cacheHit env url fs hu1 hu2 hu3 hc
  · intro hc
    rw [processNasaImage_fresh_someUrl env nasaId title url fs hn1 hn2 ht1 ht2 hu3 hc]
    have hst := nasaDownloadStage_allok env nasaId title (env.hash nasaId)
      (nasaTempPath (env.hash nasaId)) url fs (hok url) (htile _) (hread _) (hread _)
      (hwrite _) (hwrite _)
    have h201 := nasaDownloadStage_201 env nasaId title _ _ url fs hst
    have hwork := nasaDownloadStage_work env nasaId title (env.hash nasaId)
      (nasaTempPath (env.hash nasaId)) url fs
    refine ⟨h201.1, hwork.1, h201.2.2.1, hwork.2, ?_⟩
    exact processNasaImage_cacheHit env nasaId title (some url) _ hn1 hn2 ht1 ht2
      (by simp [hu3]) h201.2.1
  · intro hc
    rw [processUrl_fresh env url fs hu1 hu2 hu3 hc]
    have hst := urlDownloadStage_allok env url (env.hash url) (p4UrlTemp env url) fs
      (hok url) (by rw [hct url]) (hsz url) (htile _) (hread _) (hread _) (hwrite _) (hwrite _)
    have h201 := urlDownloadStage_201 env url _ _ fs hst
    have hwork := urlDownloadStage_work env url (env.hash url) (p4UrlTemp env url) fs
    refine ⟨h201.1, hwork.1, h201.2.2.1, hwork.2, ?_⟩
    exact processUrl_cacheHit env url _ hu1 hu2 hu3 h201.2.1

theorem C1_ingest_idempotent_witness :
    (processNasaImage wEnv "apollo" "Apollo" (some "http://x/a.jpg") emptyFS).res.payload =
      some ("h-apollo", "gigaimages/h-apollo/tiles.dzi") ∧
    (processNasaImage wEnv "apollo" "Apollo" (some "http://x/a.jpg") emptyFS).work.tilings = 1 ∧
    processNasaImage wEnv "apollo" "Apollo" (some "http://x/a.jpg")
        (processNasaImage wEnv "apollo" "Apollo" (some "http://x/a.jpg") emptyFS).fs =
      ⟨⟨200, some ("h-apollo", "gigaimages/h-apollo/tiles.dzi"), ""⟩,
        (processNasaImage wEnv "apollo" "Apollo" (some "http://x/a.jpg") emptyFS).fs, Work.zero⟩ := by
  have h := (C1_ingest_idempotent wEnv "apollo" "Apollo" "http://x/a.jpg" emptyFS
    (by decide) (by decide) (by decide) (by decide) (by decide) (by decide) rfl
    (fun _ => rfl) (fun _ => rfl) (fun _ => Nat.one_ne_zero) (fun _ => rfl) (fun _ => rfl)
    (fun _ => rfl)).2.2.1 rfl
  exact ⟨h.1, h.2.2.1, h.2.2.2.2⟩

def c3Env : Env := { wEnv with tileOk := fun _ => false }

/-- C3: when an ingestion fails after the download began, the handler
removes the partially created tile directory (tolerating absence) and the
staging files before responding; the staging files (and for `.IMG` sources
of the gdal-capable legacy handler, the converted raster) are removed on
every outcome, success included. -/
theorem C3_failure_cleanup (env : Env) (nasaId title url url2 : String)
    (imageUrl : Option String) (fs : FS)
    (hrm : ∀ p, env.rmOk p = true) :
    ((processNasaImage env nasaId title imageUrl fs).res.status = 500 →
     (processNasaImage env nasaId title imageUrl fs).work.downloads ≠ [] →
       (processNasaImage env nasaId title imageUrl fs).fs.dirs.contains (env.hash nasaId) = false ∧
       (processNasaImage env nasaId title imageUrl fs).fs.descriptors.contains (env.hash nasaId) = false ∧
       (processNasaImage env nasaId title imageUrl fs).fs.staging.contains (nasaTempPath (env.hash nasaId)) = false) ∧
    ((processNasaImage env nasaId title imageUrl fs).res.status = 201 →
       (processNasaImage env nasaId title imageUrl fs).fs.staging.contains (nasaTempPath (env.hash nasaId)) = false) ∧
    ((processUrl env url fs).res.status = 500 →
     (processUrl env url fs).work.downloads ≠ [] →
       (processUrl env url fs).fs.dirs.contains (env.hash url) = false ∧
       (processUrl env url fs).fs.descriptors.contains (env.hash url) = false ∧
       (processUrl env url fs).fs.staging.contains (p4UrlTemp env url) = false) ∧
    ((processUrl env url fs).res.status = 201 →
       (processUrl env url fs).fs.staging.contains (p4UrlTemp env url) = false) ∧
    ((processUrlV2 env url2 fs).res.status = 500 →
     (processUrlV2 env url2 fs).work.downloads ≠ [] →
       (processUrlV2 env url2 fs).fs.dirs.contains (env.hash url2) = false ∧
       (processUrlV2 env url2 fs).fs.descriptors.contains (env.hash url2) = false ∧
       (processUrlV2 env url2 fs).fs.staging.contains (sjsUrlTemp env url2) = false ∧
       (processUrlV2 env url2 fs).fs.staging.contains (sjsTiffPath env url2) = false) ∧
    ((processUrlV2 env url2 fs).res.status = 201 →
       (processUrlV2 env url2 fs).fs.staging.contains (sjsUrlTemp env url2) = false ∧
       (processUrlV2 env url2 fs).fs.staging.contains (sjsTiffPath env url2) = false) := by
  refine ⟨?_, ?_, ?_, ?_, ?_, ?_⟩
  · exact processNasaImage_500_cleanup env nasaId title imageUrl fs (hrm _)
  · exact processNasaImage_201_staging env nasaId title imageUrl fs
  · exact processUrl_500_cleanup env url fs (hrm _)
  · exact processUrl_201_staging env url fs
  · exact processUrlV2_500_cleanup env url2 fs (hrm _)
  · exact processUrlV2_201_staging env url2 fs

theorem C3_failure_cleanup_witness :
    (processNasaImage c3Env "apollo" "Apollo" (some "http://x/a.jpg") emptyFS).res.status = 500 ∧
    (processNasaImage c3Env "apollo" "Apollo" (some "http://x/a.jpg") emptyFS).fs.dirs.contains "h-apollo" = false ∧
    (processNasaImage c3Env "apollo" "Apollo" (some "http://x/a.jpg") emptyFS).fs.staging.contains
      (nasaTempPath "h-apollo") = false := by
  have h := (C3_failure_cleanup c3Env "apollo" "Apollo" "http://u1/a.jpg" "http://u2/b.img"
    (some "http://x/a.jpg") emptyFS (fun _ => rfl)).1 (by rfl) (by decide)
  exact ⟨by rfl, h.1, h.2.2⟩

/-- C4: catalog registration happens only after a successful tiling, the
record is appended only when the id is absent, registration backfills the
annotation key in the same step, and the catalog-annotation invariant is
preserved by both ingestion handlers. -/
theorem C4_registration_after_tiling (env : Env) (nasaId title url : String)
    (imageUrl : Option String) (fs : FS)
    (hw1 : env.writeOk imagesDbPath = true) (hw2 : env.writeOk annotationsDbPath = true) :
    (catAnnInv fs → catAnnInv (processNasaImage env nasaId title imageUrl fs).fs) ∧
    ((fs.imagesDb.find? (fun r => r.id = env.hash nasaId)).isSome = true →
       (processNasaImage env nasaId title imageUrl fs).fs.imagesDb = fs.imagesDb) ∧
    ((processNasaImage env nasaId title imageUrl fs).fs.imagesDb ≠ fs.imagesDb →
       (processNasaImage env nasaId title imageUrl fs).work.tilingsOk = 1) ∧
    ((fs.imagesDb.find? (fun r => r.id = env.hash nasaId)).isSome = false →
       (processNasaImage env nasaId title imageUrl fs).res.status = 201 →
       (processNasaImage env nasaId title imageUrl fs).fs.imagesDb
         = fs.imagesDb ++ [nasaRecord env nasaId title] ∧
       ((processNasaImage env nasaId title imageUrl fs).fs.annotationsDb.lookup (env.hash nasaId)).isSome = true) ∧
    (catAnnInv fs → catAnnInv (processUrl env url fs).fs) ∧
    ((fs.imagesDb.find? (fun r => r.id = env.hash url)).isSome = true →
       (processUrl env url fs).fs.imagesDb = fs.imagesDb) ∧
    ((processUrl env url fs).fs.imagesDb ≠ fs.imagesDb →
       (processUrl env url fs).work.tilingsOk = 1) ∧
    ((fs.imagesDb.find? (fun r => r.id = env.hash url)).isSome = false →
       (processUrl env url fs).res.status = 201 →
       (processUrl env url fs).fs.imagesDb = fs.imagesDb ++ [urlRecord env url] ∧
       ((processUrl env url fs).fs.annotationsDb.lookup (env.hash url)).isSome = true) := by
  refine ⟨?_, ?_, ?_, ?_, ?_, ?_, ?_, ?_⟩
  · exact processNasaImage_inv env nasaId title imageUrl fs hw1 hw2
  · exact processNasaImage_present env nasaId title imageUrl fs
  · exact processNasaImage_changed_tiled env nasaId title imageUrl fs
  · exact fun hp => processNasaImage_201_append env nasaId title imageUrl fs hp
  · exact processUrl_inv env url fs hw1 hw2
  · exact processUrl_present env url fs
  · exact processUrl_changed_tiled env url fs
  · exact fun hp => processUrl_201_append env url fs hp

theorem C4_registration_after_tiling_witness :
    catAnnInv (processNasaImage wEnv "apollo" "Apollo" (some "http://x/a.jpg") emptyFS).fs ∧
    (processNasaImage wEnv "apollo" "Apollo" (some "http://x/a.jpg") emptyFS).fs.imagesDb
      = [nasaRecord wEnv "apollo" "Apollo"] := by
  have h := C4_registration_after_tiling wEnv "apollo" "Apollo" "http://u/a.jpg"
    (some "http://x/a.jpg") emptyFS rfl rfl
  refine ⟨h.1 (fun r hr => absurd hr (List.not_mem_nil r)), ?_⟩
  have h4 := h.2.2.2.1 (by rfl) (by rfl)
  exact h4.1

def c6Items : List Item := [⟨some "https://x/a~thumb.jpg"⟩, ⟨some "https://x/a~medium.jpg"⟩]

def c6Env : Env := { wEnv with assetItems := fun _ => c6Items }

/-- C6 counterexample: the claimed four-tier priority includes a medium
tier, but the NASA ingestion handler selects original / large / first-jpg
only — on an item list holding a non-medium JPEG before a `~medium.jpg`
item, the claimed priority picks the medium URL while the code downloads
the first JPEG. -/
theorem C6_counterexample_no_medium_tier :
    specPrioritySelect c6Items = some "https://x/a~medium.jpg" ∧
    (processNasaImage c6Env "apollo11" "Apollo 11" none emptyFS).work.downloads
      = ["https://x/a~thumb.jpg"] ∧
    ("https://x/a~thumb.jpg" : String) ≠ "https://x/a~medium.jpg" :=
  ⟨by decide, by rfl, by decide⟩

/-- C6 amended: with no resolved URL, the NASA handler selects the download
URL by the priority original (`~orig.tif` / `~orig.jpg`), else large
(`~large.jpg`), else the first item whose href ends (case-insensitively)
in `.jpg` — there is no medium tier — and when no tier matches the request
fails with 500 having downloaded and tiled nothing. -/
theorem C6_amended_url_selection (env : Env) (nasaId title : String) (fs : FS)
    (hn1 : nasaId ≠ "") (hn2 : nasaId.length ≤ 100)
    (ht1 : title ≠ "") (ht2 : title.length ≤ 255)
    (hc : fs.descriptors.contains (env.hash nasaId) = false)
    (ha : env.assetOk nasaId = true) :
    (∀ it s, (env.assetItems nasaId).find? itemIsOrig = some it → it.href = some s →
       (processNasaImage env nasaId title none fs).work.downloads = [s]) ∧
    ((env.assetItems nasaId).find? itemIsOrig = none →
     ∀ it s, (env.assetItems nasaId).find? (itemHrefHas "~large.jpg") = some it →
       it.href = some s →
       (processNasaImage env nasaId title none fs).work.downloads = [s]) ∧
    ((env.assetItems nasaId).find? itemIsOrig = none →
     (env.assetItems nasaId).find? (itemHrefHas "~large.jpg") = none →
     ∀ it s, (env.assetItems nasaId).find? itemHrefJpg = some it → it.href = some s →
       (processNasaImage env nasaId title none fs).work.downloads = [s]) ∧
    ((env.assetItems nasaId).find? itemIsOrig = none →
     (env.assetItems nasaId).find? (itemHrefHas "~large.jpg") = none →
     (env.assetItems nasaId).find? itemHrefJpg = none →
       (processNasaImage env nasaId title none fs).res.status = 500 ∧
       (processNasaImage env nasaId title none fs).work.downloads = [] ∧
       (processNasaImage env nasaId title none fs).work.tilings = 0) := by
  rw [processNasaImage_fresh_noUrl env nasaId title fs hn1 hn2 ht1 ht2 hc ha]
  refine ⟨?_, ?_, ?_, ?_⟩
  · intro it s hfind hhref
    rcases selectNasaUrl_orig _ it hfind with ⟨s2, _, hhr2, hsel⟩
    rw [hhref] at hhr2
    rcases hhr2 with ⟨rfl⟩
    rw [hsel]
    exact (nasaDownloadStage_work env nasaId title _ _ s fs).1
  · intro ho it s hfind hhref
    rcases selectNasaUrl_large _ it ho hfind with ⟨s2, _, hhr2, hsel⟩
    rw [hhref] at hhr2
    rcases hhr2 with ⟨rfl⟩
    rw [hsel]
    exact (nasaDownloadStage_work env nasaId title _ _ s fs).1
  · intro ho hl it s hfind hhref
    rcases selectNasaUrl_jpg _ it ho hl hfind with ⟨s2, _, hhr2, hsel⟩
    rw [hhref] at hhr2
    rcases hhr2 with ⟨rfl⟩
    rw [hsel]
    exact (nasaDownloadStage_work env nasaId title _ _ s fs).1
  · intro ho hl hj
    rw [selectNasaUrl_none _ ho hl hj]
    exact ⟨rfl, rfl, rfl⟩

theorem C6_amended_url_selection_witness :
    (processNasaImage wEnv "apollo" "Apollo" none emptyFS).work.downloads
      = ["https://images-assets.nasa.gov/a~large.jpg"] :=
  (C6_amended_url_selection wEnv "apollo" "Apollo" emptyFS
      (by decide) (by decide) (by decide) (by decide) rfl rfl).2.1
    (by decide) ⟨some "https://images-assets.nasa.gov/a~large.jpg"⟩
    "https://images-assets.nasa.gov/a~large.jpg" (by decide) rfl

/-- C7: deletion removes the catalog row when present (continuing when
absent), removes the annotation key, persists both files, and only then
removes the tile directory; a failed directory removal is a warning on a
still-successful 200, while a metadata read or persist failure fails the
whole operation with 500; after a fully successful delete the id is no
longer listed, its annotations read back empty, and its tile directory is
gone. -/
theorem C7_delete_semantics (env : Env) (delId : String) (fs : FS)
    (h1 : delId ≠ "") (h2 : delId.length ≤ 100) :
    (¬ (env.readOk imagesDbPath = true ∧ env.readOk annotationsDbPath = true) →
       (deleteImageRoute env delId fs).status = 500 ∧ (deleteImageRoute env delId fs).fs = fs) ∧
    (env.readOk imagesDbPath = true → env.readOk annotationsDbPath = true →
      ((env.writeOk imagesDbPath = false ∨ env.writeOk annotationsDbPath = false) →
         (deleteImageRoute env delId fs).status = 500) ∧
      (env.writeOk imagesDbPath = true → env.writeOk annotationsDbPath = true →
         (deleteImageRoute env delId fs).status = 200 ∧
         (deleteImageRoute env delId fs).fs.imagesDb = removeFirstRecord fs.imagesDb delId ∧
         ((∀ r ∈ fs.imagesDb, r.id ≠ delId) →
            (deleteImageRoute env delId fs).fs.imagesDb = fs.imagesDb) ∧
         (deleteImageRoute env delId fs).fs.annotationsDb.lookup delId = none ∧
         getAnnots env delId (deleteImageRoute env delId fs).fs = (200, some []) ∧
         (env.rmOk (gigaFolder delId) = true →
            (deleteImageRoute env delId fs).warned = false ∧
            (deleteImageRoute env delId fs).fs.dirs.contains delId = false ∧
            (deleteImageRoute env delId fs).fs.descriptors.contains delId = false ∧
            (∀ l, listImages env (deleteImageRoute env delId fs).fs = some l →
               ∀ e ∈ l, e.id ≠ delId)) ∧
         (env.rmOk (gigaFolder delId) = false →
            (deleteImageRoute env delId fs).status = 200 ∧
            (deleteImageRoute env delId fs).warned = true))) := by
  have hvalneg : ¬ (delId = "" ∨ delId.length > 100) := by
    push_neg
    exact ⟨h1, by omega⟩
  constructor
  · intro hread
    unfold deleteImageRoute
    rw [if_neg hvalneg, if_pos hread]
    exact ⟨rfl, rfl⟩
  · intro hr1 hr2
    constructor
    · intro hwf
      unfold deleteImageRoute
      rw [if_neg hvalneg, if_neg (by simp [hr1, hr2])]
      by_cases hwi : env.writeOk imagesDbPath = true
      · rcases hwf with hwf | hwf
        · rw [hwf] at hwi
          simp at hwi
        · rw [if_neg (by simp [hwi]), if_pos (by simp [hwf])]
      · rw [if_pos (by simpa using hwi)]
    · intro hw1 hw2
      unfold deleteImageRoute
      rw [if_neg hvalneg, if_neg (by simp [hr1, hr2]), if_neg (by simp [hw1]),
        if_neg (by simp [hw2])]
      by_cases hrm : env.rmOk (gigaFolder delId) = true
      · rw [if_pos hrm]
        refine ⟨rfl, rfl, ?_, ?_, ?_, ?_, ?_⟩
        · intro habs
          exact removeFirstRecord_absent fs.imagesDb delId habs
        · exact lookup_delKey fs.annotationsDb delId
        · unfold getAnnots
          rw [if_neg hvalneg, if_neg (by simp [hr2])]
          rw [lookup_delKey fs.annotationsDb delId]
          rfl
        · intro _
          refine ⟨rfl, contains_filter_ne _ _, contains_filter_ne _ _, ?_⟩
          exact listImages_excludes env _ delId (contains_filter_ne _ _)
        · intro hrmf
          rw [hrmf] at hrm
          simp at hrm
      · rw [if_neg hrm]
        refine ⟨rfl, rfl, ?_, ?_, ?_, ?_, ?_⟩
        · intro habs
          exact removeFirstRecord_absent fs.imagesDb delId habs
        · exact lookup_delKey fs.annotationsDb delId
        · unfold getAnnots
          rw [if_neg hvalneg, if_neg (by simp [hr2])]
          rw [lookup_delKey fs.annotationsDb delId]
          rfl
        · intro hrmt
          exact absurd hrmt hrm
        · intro _
          exact ⟨rfl, rfl⟩

theorem C7_delete_semantics_witness :
    (deleteImageRoute wEnv "i1" ⟨["i1"], ["i1"], [], [⟨"i1", "n1", "p1", "url", "u", "t"⟩], [("i1", [])]⟩).status = 200 ∧
    (deleteImageRoute wEnv "i1" ⟨["i1"], ["i1"], [], [⟨"i1", "n1", "p1", "url", "u", "t"⟩], [("i1", [])]⟩).fs.dirs.contains "i1" = false ∧
    getAnnots wEnv "i1"
      (deleteImageRoute wEnv "i1" ⟨["i1"], ["i1"], [], [⟨"i1", "n1", "p1", "url", "u", "t"⟩], [("i1", [])]⟩).fs = (200, some []) := by
  have h := (C7_delete_semantics wEnv "i1"
      ⟨["i1"], ["i1"], [], [⟨"i1", "n1", "p1", "url", "u", "t"⟩], [("i1", [])]⟩
      (by decide) (by decide)).2 rfl rfl
  have hm := h.2 rfl rfl
  exact ⟨hm.1, (hm.2.2.2.2.2.1 rfl).2.1, hm.2.2.2.2.1⟩

set_option maxHeartbeats 1600000 in
/-- C8: posting an annotation stores and echoes it with 201 on a valid
body, and rejects with 400 — leaving the annotation store untouched —
whenever `id`, `text` or `point.x`/`point.y` is missing or of the wrong
type, the text exceeds its length bound, or the image id exceeds its
bound. -/
theorem C8_annotation_validation (env : Env) (imageId : String) (body : JValue) (fs : FS)
    (h1 : imageId ≠ "") (h2 : imageId.length ≤ 100)
    (hread : env.readOk annotationsDbPath = true)
    (hwrite : env.writeOk annotationsDbPath = true) :
    (∀ s pt a b,
       truthyOpt (body.getField "id") = true →
       body.getField "text" = some (JValue.jstr s) → s ≠ "" → s.length ≤ 500 →
       body.getField "point" = some pt → pt.truthy = true →
       pt.getField "x" = some (JValue.jnum a) → pt.getField "y" = some (JValue.jnum b) →
       isObjLike body = true →
       (saveAnnot env imageId body fs).status = 201 ∧
       (saveAnnot env imageId body fs).body = some body ∧
       (saveAnnot env imageId body fs).fs.annotationsDb.lookup imageId =
         some ((fs.annotationsDb.lookup imageId).getD [] ++ [body])) ∧
    (body.getField "id" = none →
       (saveAnnot env imageId body fs).status = 400 ∧ (saveAnnot env imageId body fs).fs = fs) ∧
    (body.getField "text" = none →
       (saveAnnot env imageId body fs).status = 400 ∧ (saveAnnot env imageId body fs).fs = fs) ∧
    (body.getField "point" = none →
       (saveAnnot env imageId body fs).status = 400 ∧ (saveAnnot env imageId body fs).fs = fs) ∧
    (∀ v, body.getField "text" = some v → (∀ s, v ≠ JValue.jstr s) →
       (saveAnnot env imageId body fs).status = 400 ∧ (saveAnnot env imageId body fs).fs = fs) ∧
    (∀ s, body.getField "text" = some (JValue.jstr s) → s.length > 500 →
       (saveAnnot env imageId body fs).status = 400 ∧ (saveAnnot env imageId body fs).fs = fs) ∧
    (∀ pt, body.getField "point" = some pt →
       (∀ a, pt.getField "x" ≠ some (JValue.jnum a)) →
       (saveAnnot env imageId body fs).status = 400 ∧ (saveAnnot env imageId body fs).fs = fs) ∧
    (∀ pt, body.getField "point" = some pt →
       (∀ b, pt.getField "y" ≠ some (JValue.jnum b)) →
       (saveAnnot env imageId body fs).status = 400 ∧ (saveAnnot env imageId body fs).fs = fs) ∧
    (∀ bigId : String, bigId.length > 100 →
       (saveAnnot env bigId body fs).status = 400 ∧ (saveAnnot env bigId body fs).fs = fs) := by
  have hvalneg : ¬ (imageId = "" ∨ imageId.length > 100) := by
    push_neg
    exact ⟨h1, by omega⟩
  refine ⟨?_, ?_, ?_, ?_, ?_, ?_, ?_, ?_, ?_⟩
  · intro s pt a b hid htext hsne hslen hpt hptt hx hy hobj
    unfold saveAnnot
    rw [if_neg hvalneg]
    split_ifs <;>
      first
        | exact ⟨rfl, rfl, lookup_annPush fs.annotationsDb imageId body⟩
        | (simp_all [truthyOpt, JValue.truthy]; done)
        | (exfalso; simp_all [truthyOpt, JValue.truthy]; omega)
  · intro hid
    unfold saveAnnot
    rw [if_neg hvalneg]
    split_ifs <;>
      first
        | exact ⟨rfl, rfl⟩
        | (simp_all [truthyOpt, JValue.truthy]; done)
        | (exfalso; simp_all [truthyOpt, JValue.truthy]; omega)
  · intro htext
    unfold saveAnnot
    rw [if_neg hvalneg]
    split_ifs <;>
      first
        | exact ⟨rfl, rfl⟩
        | (simp_all [truthyOpt, JValue.truthy]; done)
        | (exfalso; simp_all [truthyOpt, JValue.truthy]; omega)
  · intro hpt
    unfold saveAnnot
    rw [if_neg hvalneg]
    split_ifs <;>
      first
        | exact ⟨rfl, rfl⟩
        | (simp_all [truthyOpt, JValue.truthy]; done)
        | (exfalso; simp_all [truthyOpt, JValue.truthy]; omega)
  · intro v htext hnotstr
    cases v <;>
      first
        | exact absurd rfl (hnotstr _)
        | (unfold saveAnnot
           rw [if_neg hvalneg]
           split_ifs <;>
             first
               | exact ⟨rfl, rfl⟩
               | (simp_all [truthyOpt, JValue.truthy]; done)
               | (exfalso; simp_all [truthyOpt, JValue.truthy]; omega))
  · intro s htext hlong
    unfold saveAnnot
    rw [if_neg hvalneg]
    split_ifs <;>
      first
        | exact ⟨rfl, rfl⟩
        | (simp_all [truthyOpt, JValue.truthy]; done)
        | (exfalso; simp_all [truthyOpt, JValue.truthy]; omega)
        | (exfalso; simp_all [truthyOpt, JValue.truthy]; omega)
  · intro pt hpt hx
    unfold saveAnnot
    rw [if_neg hvalneg]
    cases hgx : pt.getField "x" with
    | some v =>
      cases v <;>
        first
          | exact absurd hgx (hx _)
          | (split_ifs <;>
              first
                | exact ⟨rfl, rfl⟩
                | (simp_all [truthyOpt, JValue.truthy]; done)
                | (exfalso; simp_all [truthyOpt, JValue.truthy]; omega))
    | none =>
      split_ifs <;>
        first
          | exact ⟨rfl, rfl⟩
          | (simp_all [truthyOpt, JValue.truthy]; done)
          | (exfalso; simp_all [truthyOpt, JValue.truthy]; omega)
  · intro pt hpt hy
    unfold saveAnnot
    rw [if_neg hvalneg]
    cases hgy : pt.getField "y" with
    | some v =>
      cases v <;>
        first
          | exact absurd hgy (hy _)
          | (split_ifs <;>
              first
                | exact ⟨rfl, rfl⟩
                | (simp_all [truthyOpt, JValue.truthy]; done)
                | (exfalso; simp_all [truthyOpt, JValue.truthy]; omega))
    | none =>
      split_ifs <;>
        first
          | exact ⟨rfl, rfl⟩
          | (simp_all [truthyOpt, JValue.truthy]; done)
          | (exfalso; simp_all [truthyOpt, JValue.truthy]; omega)
  · intro bigId hbig
    unfold saveAnnot
    rw [if_pos (Or.inr hbig)]
    exact ⟨rfl, rfl⟩

def c8Body : JValue :=
  .jobj [("id", .jstr "a1"), ("text", .jstr "hi"),
         ("point", .jobj [("x", .jnum 1), ("y", .jnum 2)])]

theorem C8_annotation_validation_witness :
    (saveAnnot wEnv "img1" c8Body emptyFS).status = 201 ∧
    (saveAnnot wEnv "img1" c8Body emptyFS).body = some c8Body ∧
    (saveAnnot wEnv "img1" c8Body emptyFS).fs.annotationsDb.lookup "img1" = some [c8Body] := by
  have h := (C8_annotation_validation wEnv "img1" c8Body emptyFS (by decide) (by decide) rfl rfl).1
    "hi" (.jobj [("x", .jnum 1), ("y", .jnum 2)]) 1 2 rfl rfl (by decide) (by decide) rfl rfl rfl rfl rfl
  exact ⟨h.1, h.2.1, h.2.2⟩
